import Mathlib

/-!
Verification of the basic-solid-modelling renderer (TypeScript) against its
natural-language specification.

Shallow embedding conventions:

* JavaScript `number` (IEEE-754 double) is modelled by `ℚ`: all arithmetic in
  the embedded code is exact.  Floating rounding (including the `Float32Array`
  storage inside `Mat4` and `Uint8ClampedArray` pixel stores) is out of scope
  and is not modelled.  Numeric literals such as `1e-10` are modelled by the
  exact rationals they denote in source text.
* The transcendental library functions `Math.sqrt`, `Math.hypot`, `Math.tan`,
  `Math.sin`, `Math.cos` and `Math.pow` have no exact rational counterpart, so
  they are abstracted into a `FloatOps` record that every embedded function
  receives as a parameter; `Math.hypot(a, b, ...)` is modelled as
  `ops.sqrt (a^2 + b^2 + ...)`.  Theorems pin down the values of these
  operations pointwise by hypotheses (for example `0 ≤ s ∧ s^2 = q` for
  `s = ops.sqrt q`), and concrete evaluations instantiate `FloatOps` with
  rational surrogates that are exact at every point the computation consumes.
* JavaScript array reads out of bounds yield `undefined`; where the source
  relies on this (`projectedPoints[i]` falsy check) the embedding uses
  `List.getD i none`.  Where the source would crash on an out-of-range index
  (vertex positions), the embedding totalises with `List.getD` and theorems
  carry in-range hypotheses; the spec makes index validity a caller contract.
* `Array.prototype.sort` (ES2019+: stable) is modelled by a stable insertion
  sort `jsSort`; for a consistent comparator this agrees with any stable sort.
* fields and functions keep the source names (`putPixelRaw` stands for the
  source's `putPixelUnsafe`, renamed here only for lexical reasons).
-/

/-- Abstraction of the transcendental `Math.*` functions used by the source
(`Math.sqrt`/`Math.hypot`, `Math.tan`, `Math.sin`, `Math.cos`, `Math.pow`).
Each embedded function takes the operations as an explicit parameter. -/
structure FloatOps where
  sqrt : ℚ → ℚ
  tan : ℚ → ℚ
  sin : ℚ → ℚ
  cos : ℚ → ℚ
  pow : ℚ → ℚ → ℚ

/-- `Math.floor`. -/
def jsFloor (q : ℚ) : ℤ := ⌊q⌋

/-- `Math.ceil`. -/
def jsCeil (q : ℚ) : ℤ := ⌈q⌉

/-- `Math.round` (round half toward +∞, exactly JavaScript's rule). -/
def jsRound (q : ℚ) : ℤ := ⌊q + 1/2⌋

/-- Truncation toward zero, as used by the JavaScript `%` operator. -/
def jsTrunc (q : ℚ) : ℤ := if 0 ≤ q then ⌊q⌋ else ⌈q⌉

/-- JavaScript remainder operator `a % b` (sign follows the dividend). -/
def jsMod (a b : ℚ) : ℚ := a - b * (jsTrunc (a / b) : ℚ)

/-- The exact rational value of the IEEE-754 double `Math.PI`. -/
def jsPI : ℚ := 884279719003555 / 281474976710656

/-- `src/math/vec2.ts` — 2-component vector (only the members the rasterizer
uses are embedded). -/
structure Vec2 where
  x : ℚ
  y : ℚ
deriving DecidableEq

/-- `src/math/vec3.ts` — 3-component vector. -/
structure Vec3 where
  x : ℚ
  y : ℚ
  z : ℚ
deriving DecidableEq

/-- `Vec3.add`. -/
def Vec3.add (a b : Vec3) : Vec3 := ⟨a.x + b.x, a.y + b.y, a.z + b.z⟩

/-- `Vec3.sub`. -/
def Vec3.sub (a b : Vec3) : Vec3 := ⟨a.x - b.x, a.y - b.y, a.z - b.z⟩

/-- `Vec3.scale`. -/
def Vec3.scale (a : Vec3) (s : ℚ) : Vec3 := ⟨a.x * s, a.y * s, a.z * s⟩

/-- `Vec3.negate`. -/
def Vec3.negate (a : Vec3) : Vec3 := ⟨-a.x, -a.y, -a.z⟩

/-- `Vec3.dot`. -/
def Vec3.dot (a b : Vec3) : ℚ := a.x * b.x + a.y * b.y + a.z * b.z

/-- `Vec3.cross`. -/
def Vec3.cross (a b : Vec3) : Vec3 :=
  ⟨a.y * b.z - a.z * b.y, a.z * b.x - a.x * b.z, a.x * b.y - a.y * b.x⟩

/-- `Vec3.lengthSq`. -/
def Vec3.lengthSq (a : Vec3) : ℚ := a.dot a

/-- `Vec3.length` (`Math.hypot(x, y, z)`). -/
def Vec3.length (ops : FloatOps) (a : Vec3) : ℚ := ops.sqrt a.lengthSq

/-- `Vec3.normalize` (returns the zero vector when the length is zero). -/
def Vec3.normalize (ops : FloatOps) (a : Vec3) : Vec3 :=
  let len := a.length ops
  if len = 0 then ⟨0, 0, 0⟩ else a.scale (1 / len)

/-- `src/math/vec4.ts` — 4-component vector (plain record). -/
structure Vec4 where
  x : ℚ
  y : ℚ
  z : ℚ
  w : ℚ
deriving DecidableEq

/-- `src/math/mat4.ts` — 4×4 matrix, column-major: column `j` is entries
`m(4j) … m(4j+3)`; vectors are column vectors, `out = M * v`. -/
structure Mat4 where
  m0 : ℚ
  m1 : ℚ
  m2 : ℚ
  m3 : ℚ
  m4 : ℚ
  m5 : ℚ
  m6 : ℚ
  m7 : ℚ
  m8 : ℚ
  m9 : ℚ
  m10 : ℚ
  m11 : ℚ
  m12 : ℚ
  m13 : ℚ
  m14 : ℚ
  m15 : ℚ
deriving DecidableEq

/-- `Mat4.identity`. -/
def Mat4.identity : Mat4 :=
  ⟨1, 0, 0, 0, 0, 1, 0, 0, 0, 0, 1, 0, 0, 0, 0, 1⟩

/-- `Mat4.multiply` — `out = this * other`. -/
def Mat4.multiply (a b : Mat4) : Mat4 :=
  ⟨a.m0 * b.m0 + a.m4 * b.m1 + a.m8 * b.m2 + a.m12 * b.m3,
   a.m1 * b.m0 + a.m5 * b.m1 + a.m9 * b.m2 + a.m13 * b.m3,
   a.m2 * b.m0 + a.m6 * b.m1 + a.m10 * b.m2 + a.m14 * b.m3,
   a.m3 * b.m0 + a.m7 * b.m1 + a.m11 * b.m2 + a.m15 * b.m3,
   a.m0 * b.m4 + a.m4 * b.m5 + a.m8 * b.m6 + a.m12 * b.m7,
   a.m1 * b.m4 + a.m5 * b.m5 + a.m9 * b.m6 + a.m13 * b.m7,
   a.m2 * b.m4 + a.m6 * b.m5 + a.m10 * b.m6 + a.m14 * b.m7,
   a.m3 * b.m4 + a.m7 * b.m5 + a.m11 * b.m6 + a.m15 * b.m7,
   a.m0 * b.m8 + a.m4 * b.m9 + a.m8 * b.m10 + a.m12 * b.m11,
   a.m1 * b.m8 + a.m5 * b.m9 + a.m9 * b.m10 + a.m13 * b.m11,
   a.m2 * b.m8 + a.m6 * b.m9 + a.m10 * b.m10 + a.m14 * b.m11,
   a.m3 * b.m8 + a.m7 * b.m9 + a.m11 * b.m10 + a.m15 * b.m11,
   a.m0 * b.m12 + a.m4 * b.m13 + a.m8 * b.m14 + a.m12 * b.m15,
   a.m1 * b.m12 + a.m5 * b.m13 + a.m9 * b.m14 + a.m13 * b.m15,
   a.m2 * b.m12 + a.m6 * b.m13 + a.m10 * b.m14 + a.m14 * b.m15,
   a.m3 * b.m12 + a.m7 * b.m13 + a.m11 * b.m14 + a.m15 * b.m15⟩

/-- `Mat4.transformVec4` — `out = this * v`. -/
def Mat4.transformVec4 (a : Mat4) (v : Vec4) : Vec4 :=
  ⟨a.m0 * v.x + a.m4 * v.y + a.m8 * v.z + a.m12 * v.w,
   a.m1 * v.x + a.m5 * v.y + a.m9 * v.z + a.m13 * v.w,
   a.m2 * v.x + a.m6 * v.y + a.m10 * v.z + a.m14 * v.w,
   a.m3 * v.x + a.m7 * v.y + a.m11 * v.z + a.m15 * v.w⟩

/-- `Mat4.translation`. -/
def Mat4.translation (tx ty tz : ℚ) : Mat4 :=
  ⟨1, 0, 0, 0, 0, 1, 0, 0, 0, 0, 1, 0, tx, ty, tz, 1⟩

/-- `Mat4.scaling`. -/
def Mat4.scaling (sx sy sz : ℚ) : Mat4 :=
  ⟨sx, 0, 0, 0, 0, sy, 0, 0, 0, 0, sz, 0, 0, 0, 0, 1⟩

/-- `Mat4.rotationX`. -/
def Mat4.rotationX (ops : FloatOps) (rad : ℚ) : Mat4 :=
  let c := ops.cos rad
  let s := ops.sin rad
  ⟨1, 0, 0, 0, 0, c, s, 0, 0, -s, c, 0, 0, 0, 0, 1⟩

/-- `Mat4.rotationY`. -/
def Mat4.rotationY (ops : FloatOps) (rad : ℚ) : Mat4 :=
  let c := ops.cos rad
  let s := ops.sin rad
  ⟨c, 0, -s, 0, 0, 1, 0, 0, s, 0, c, 0, 0, 0, 0, 1⟩

/-- `Mat4.rotationZ`. -/
def Mat4.rotationZ (ops : FloatOps) (rad : ℚ) : Mat4 :=
  let c := ops.cos rad
  let s := ops.sin rad
  ⟨c, s, 0, 0, -s, c, 0, 0, 0, 0, 1, 0, 0, 0, 0, 1⟩

/-- `Mat4.transpose`. -/
def Mat4.transpose (a : Mat4) : Mat4 :=
  ⟨a.m0, a.m4, a.m8, a.m12,
   a.m1, a.m5, a.m9, a.m13,
   a.m2, a.m6, a.m10, a.m14,
   a.m3, a.m7, a.m11, a.m15⟩

/-- `Mat4.inverse` — cofactor expansion, `null` when `|det| < 1e-10`. -/
def Mat4.inverse (a : Mat4) : Option Mat4 :=
  let s0 := a.m0 * a.m5 - a.m1 * a.m4
  let s1 := a.m0 * a.m6 - a.m2 * a.m4
  let s2 := a.m0 * a.m7 - a.m3 * a.m4
  let s3 := a.m1 * a.m6 - a.m2 * a.m5
  let s4 := a.m1 * a.m7 - a.m3 * a.m5
  let s5 := a.m2 * a.m7 - a.m3 * a.m6
  let c5 := a.m10 * a.m15 - a.m11 * a.m14
  let c4 := a.m9 * a.m15 - a.m11 * a.m13
  let c3 := a.m9 * a.m14 - a.m10 * a.m13
  let c2 := a.m8 * a.m15 - a.m11 * a.m12
  let c1 := a.m8 * a.m14 - a.m10 * a.m12
  let c0 := a.m8 * a.m13 - a.m9 * a.m12
  let det := s0 * c5 - s1 * c4 + s2 * c3 + s3 * c2 - s4 * c1 + s5 * c0
  if |det| < 1/10^10 then none else
  let invDet := 1 / det
  some
    ⟨(a.m5 * c5 - a.m6 * c4 + a.m7 * c3) * invDet,
     (-a.m1 * c5 + a.m2 * c4 - a.m3 * c3) * invDet,
     (a.m13 * s5 - a.m14 * s4 + a.m15 * s3) * invDet,
     (-a.m9 * s5 + a.m10 * s4 - a.m11 * s3) * invDet,
     (-a.m4 * c5 + a.m6 * c2 - a.m7 * c1) * invDet,
     (a.m0 * c5 - a.m2 * c2 + a.m3 * c1) * invDet,
     (-a.m12 * s5 + a.m14 * s2 - a.m15 * s1) * invDet,
     (a.m8 * s5 - a.m10 * s2 + a.m11 * s1) * invDet,
     (a.m4 * c4 - a.m5 * c2 + a.m7 * c0) * invDet,
     (-a.m0 * c4 + a.m1 * c2 - a.m3 * c0) * invDet,
     (a.m12 * s4 - a.m13 * s2 + a.m15 * s0) * invDet,
     (-a.m8 * s4 + a.m9 * s2 - a.m11 * s0) * invDet,
     (-a.m4 * c3 + a.m5 * c1 - a.m6 * c0) * invDet,
     (a.m0 * c3 - a.m1 * c1 + a.m2 * c0) * invDet,
     (-a.m12 * s3 + a.m13 * s1 - a.m14 * s0) * invDet,
     (a.m8 * s3 - a.m9 * s1 + a.m10 * s0) * invDet⟩

/-- `Mat4.normalMatrix` — inverse transpose, `null` when singular. -/
def Mat4.normalMatrix (a : Mat4) : Option Mat4 :=
  match a.inverse with
  | some inv => some inv.transpose
  | none => none

/-- `Mat4.perspective` — right-handed perspective projection looking down
`-Z`; `Math.tan(fovYRad / 2)` is taken from the `FloatOps` parameter. -/
def Mat4.perspective (ops : FloatOps) (fovYRad aspect near far : ℚ) : Mat4 :=
  let f := 1 / ops.tan (fovYRad / 2)
  let rangeInv := 1 / (near - far)
  ⟨f / aspect, 0, 0, 0,
   0, f, 0, 0,
   0, 0, (far + near) * rangeInv, -1,
   0, 0, (2 * far * near) * rangeInv, 0⟩

/-- `src/math/quat.ts` — quaternion `(x, y, z, w)`, `w` the scalar part.
Only the members used by `Camera.getViewMatrix` are embedded. -/
structure Quat where
  x : ℚ
  y : ℚ
  z : ℚ
  w : ℚ
deriving DecidableEq

/-- `Quat.identity`. -/
def Quat.identity : Quat := ⟨0, 0, 0, 1⟩

/-- `Quat.conjugate`. -/
def Quat.conjugate (q : Quat) : Quat := ⟨-q.x, -q.y, -q.z, q.w⟩

/-- `Quat.toMat4` — rotation matrix of the quaternion (column-major). -/
def Quat.toMat4 (q : Quat) : Mat4 :=
  let xx := q.x * q.x
  let yy := q.y * q.y
  let zz := q.z * q.z
  let xy := q.x * q.y
  let xz := q.x * q.z
  let yz := q.y * q.z
  let wx := q.w * q.x
  let wy := q.w * q.y
  let wz := q.w * q.z
  ⟨1 - 2 * (yy + zz), 2 * (xy + wz), 2 * (xz - wy), 0,
   2 * (xy - wz), 1 - 2 * (xx + zz), 2 * (yz + wx), 0,
   2 * (xz + wy), 2 * (yz - wx), 1 - 2 * (xx + yy), 0,
   0, 0, 0, 1⟩

/-- `src/core/Camera.ts` — perspective camera. -/
structure Camera where
  position : Vec3
  orientation : Quat
  fovYRad : ℚ
  near : ℚ
  far : ℚ

/-- `Camera.getViewMatrix` — `R^T * T(-position)`. -/
def Camera.getViewMatrix (c : Camera) : Mat4 :=
  let rotInv := c.orientation.conjugate.toMat4
  let trans := Mat4.translation (-c.position.x) (-c.position.y) (-c.position.z)
  rotInv.multiply trans

/-- `Camera.getProjectionMatrix`. -/
def Camera.getProjectionMatrix (ops : FloatOps) (c : Camera) (aspect : ℚ) : Mat4 :=
  Mat4.perspective ops c.fovYRad aspect c.near c.far

/-- `src/core/Lighting.ts` — RGB color with channels in 0–1. -/
structure ColorRGB where
  r : ℚ
  g : ℚ
  b : ℚ
deriving DecidableEq

/-- Attenuation coefficients of a point/spot light. -/
structure LightAttenuation where
  constant : ℚ
  linear : ℚ
  quadratic : ℚ
deriving DecidableEq

/-- Material: diffuse and specular colors, shininess, optional emissive. -/
structure Material where
  diffuse : ColorRGB
  specular : ColorRGB
  shininess : ℚ
  emissive : Option ColorRGB := none
deriving DecidableEq

/-- Directional light. -/
structure DirectionalLight where
  direction : Vec3
  color : ColorRGB
  intensity : ℚ
deriving DecidableEq

/-- Point light. -/
structure PointLight where
  position : Vec3
  color : ColorRGB
  intensity : ℚ
  attenuation : Option LightAttenuation := none
deriving DecidableEq

/-- Spot light. -/
structure SpotLight where
  position : Vec3
  direction : Vec3
  color : ColorRGB
  intensity : ℚ
  innerCone : Option ℚ := none
  outerCone : Option ℚ := none
  attenuation : Option LightAttenuation := none
deriving DecidableEq

/-- The closed tagged union of lights. -/
inductive Light where
  | directional (l : DirectionalLight)
  | point (l : PointLight)
  | spot (l : SpotLight)
deriving DecidableEq

/-- `EPS = 1e-10` in `Lighting.ts`. -/
def EPS : ℚ := 1 / 10 ^ 10

/-- `clampColor` — clamp every channel to 0–1. -/
def clampColor (c : ColorRGB) : ColorRGB :=
  ⟨min 1 (max 0 c.r), min 1 (max 0 c.g), min 1 (max 0 c.b)⟩

/-- `safeNormalize` — normalize, or the fallback when the length is ≤ EPS. -/
def safeNormalize (ops : FloatOps) (v fallback : Vec3) : Vec3 :=
  if EPS < v.length ops then v.normalize ops else fallback

/-- `specularFactor` — Phong specular `(R·V)^shininess`, `0` if the surface
faces away from the light or shininess is `0`. -/
def specularFactor (ops : FloatOps) (L N V : Vec3) (shininess : ℚ) : ℚ :=
  if shininess ≤ 0 then 0
  else
    let NdotL := N.dot L
    if NdotL ≤ 0 then 0
    else
      let R := (L.scale (-1)).add (N.scale (2 * NdotL))
      let RdotV := max 0 ((safeNormalize ops R N).dot V)
      ops.pow RdotV shininess

/-- `lightContribution` — diffuse and specular contribution from one light. -/
def lightContribution (ops : FloatOps) (L : Vec3) (att : ℚ) (N V : Vec3)
    (material : Material) (lightColor : ColorRGB) : ColorRGB × ColorRGB :=
  let NdotL := max 0 (N.dot L)
  let diffuse : ColorRGB :=
    ⟨lightColor.r * att * NdotL * material.diffuse.r,
     lightColor.g * att * NdotL * material.diffuse.g,
     lightColor.b * att * NdotL * material.diffuse.b⟩
  let spec := specularFactor ops L N V material.shininess
  let specular : ColorRGB :=
    ⟨lightColor.r * att * spec * material.specular.r,
     lightColor.g * att * spec * material.specular.g,
     lightColor.b * att * spec * material.specular.b⟩
  (diffuse, specular)

/-- `getDirectionalLAndAtt`. -/
def getDirectionalLAndAtt (ops : FloatOps) (light : DirectionalLight) : Vec3 × ℚ :=
  (safeNormalize ops light.direction light.direction, light.intensity)

/-- `pointAttenuation`. -/
def pointAttenuation (light : PointLight) (dist : ℚ) : ℚ :=
  match light.attenuation with
  | none => light.intensity
  | some a => light.intensity / (a.constant + a.linear * dist + a.quadratic * dist * dist)

/-- `getPointLAndAtt` — `null` when the surface point is (almost) at the
light's position. -/
def getPointLAndAtt (ops : FloatOps) (light : PointLight) (vertexPos : Vec3) :
    Option (Vec3 × ℚ) :=
  let toLight := light.position.sub vertexPos
  let dist := toLight.length ops
  if dist < EPS then none
  else some (toLight.scale (1 / dist), pointAttenuation light dist)

/-- `getSpotLAndAtt` — point-light direction plus the cone falloff factor:
`1` at cosine ≥ cos(inner), `0` below cos(outer), a ramp that is linear in
the cosine in between; the factor is multiplied into the intensity before
the distance attenuation divides it. -/
def getSpotLAndAtt (ops : FloatOps) (light : SpotLight) (vertexPos : Vec3) :
    Option (Vec3 × ℚ) :=
  let toLight := light.position.sub vertexPos
  let dist := toLight.length ops
  if dist < EPS then none
  else
    let L := toLight.scale (1 / dist)
    let spotDir := safeNormalize ops light.direction light.direction
    let cosAngle := max 0 (L.negate.dot spotDir)
    let outer := light.outerCone.getD (jsPI / 4)
    let inner := light.innerCone.getD (outer * (8/10))
    let spot : ℚ :=
      if cosAngle < ops.cos outer then 0
      else if cosAngle < ops.cos inner then
        (cosAngle - ops.cos outer) / (ops.cos inner - ops.cos outer)
      else 1
    let att0 := spot * light.intensity
    let att :=
      match light.attenuation with
      | none => att0
      | some a => att0 / (a.constant + a.linear * dist + a.quadratic * dist * dist)
    some (L, att)

/-- `computeLightingComponents` — ambient + emissive + per-light diffuse and
specular, unclamped totals. -/
def computeLightingComponents (ops : FloatOps) (vertexPos normal viewDir : Vec3)
    (material : Material) (lights : List Light) (ambientColor : ColorRGB) :
    ColorRGB × ColorRGB :=
  let N := safeNormalize ops normal ⟨0, 1, 0⟩
  let V := safeNormalize ops viewDir ⟨0, 0, -1⟩
  let base : ColorRGB :=
    ⟨ambientColor.r * material.diffuse.r,
     ambientColor.g * material.diffuse.g,
     ambientColor.b * material.diffuse.b⟩
  let baseE : ColorRGB :=
    match material.emissive with
    | some e => ⟨base.r + e.r, base.g + e.g, base.b + e.b⟩
    | none => base
  lights.foldl
    (fun acc light =>
      let contrib? : Option ((Vec3 × ℚ) × ColorRGB) :=
        match light with
        | Light.directional l => some (getDirectionalLAndAtt ops l, l.color)
        | Light.point l =>
          match getPointLAndAtt ops l vertexPos with
          | some out => some (out, l.color)
          | none => none
        | Light.spot l =>
          match getSpotLAndAtt ops l vertexPos with
          | some out => some (out, l.color)
          | none => none
      match contrib? with
      | none => acc
      | some ((L, att), lightColor) =>
        let contrib := lightContribution ops L att N V material lightColor
        (⟨acc.1.r + contrib.1.r, acc.1.g + contrib.1.g, acc.1.b + contrib.1.b⟩,
         ⟨acc.2.r + contrib.2.r, acc.2.g + contrib.2.g, acc.2.b + contrib.2.b⟩))
    (baseE, ⟨0, 0, 0⟩)

/-- `computeLighting` — clamped sum of diffuse and specular. -/
def computeLighting (ops : FloatOps) (vertexPos normal viewDir : Vec3)
    (material : Material) (lights : List Light) (ambientColor : ColorRGB) : ColorRGB :=
  let c := computeLightingComponents ops vertexPos normal viewDir material lights ambientColor
  clampColor ⟨c.1.r + c.2.r, c.1.g + c.2.g, c.1.b + c.2.b⟩

/-- `computeLightingDiffuseAndSpecular` — diffuse and specular clamped
separately (for texture compositing). -/
def computeLightingDiffuseAndSpecular (ops : FloatOps) (vertexPos normal viewDir : Vec3)
    (material : Material) (lights : List Light) (ambientColor : ColorRGB) :
    ColorRGB × ColorRGB :=
  let c := computeLightingComponents ops vertexPos normal viewDir material lights ambientColor
  (clampColor c.1, clampColor c.2)

/-- `transformLightsToCameraSpace` — positions with `w = 1`, directions with
`w = 0`. -/
def transformLightsToCameraSpace (lights : List Light) (view : Mat4) : List Light :=
  lights.map fun light =>
    match light with
    | Light.directional l =>
      let d := view.transformVec4 ⟨l.direction.x, l.direction.y, l.direction.z, 0⟩
      Light.directional { l with direction := ⟨d.x, d.y, d.z⟩ }
    | Light.point l =>
      let p := view.transformVec4 ⟨l.position.x, l.position.y, l.position.z, 1⟩
      Light.point { l with position := ⟨p.x, p.y, p.z⟩ }
    | Light.spot l =>
      let p := view.transformVec4 ⟨l.position.x, l.position.y, l.position.z, 1⟩
      let d := view.transformVec4 ⟨l.direction.x, l.direction.y, l.direction.z, 0⟩
      Light.spot { l with position := ⟨p.x, p.y, p.z⟩, direction := ⟨d.x, d.y, d.z⟩ }

/-- One hexadecimal digit value (`parseInt(·, 16)` per character). -/
def hexDigit (c : Char) : Option ℕ :=
  if ('0' ≤ c ∧ c ≤ '9') then some (c.toNat - 48)
  else if ('a' ≤ c ∧ c ≤ 'f') then some (c.toNat - 87)
  else if ('A' ≤ c ∧ c ≤ 'F') then some (c.toNat - 55)
  else none

/-- `parseInt(s, 16)` on a short digit string; `none` models `NaN`. -/
def jsParseIntHex (s : String) : Option ℕ :=
  s.toList.foldl
    (fun acc c =>
      match acc, hexDigit c with
      | some n, some d => some (16 * n + d)
      | _, _ => none)
    (some 0)

/-- `hexToColorRGB` — parse `#rrggbb` or `#rgb` to channels in 0–1.  A string
with invalid digits produces `NaN` channels in JavaScript; `NaN` is not
modelled and such channels are embedded as `0` (no claim touches them). -/
def hexToColorRGB (hex : String) : ColorRGB :=
  let h := if hex.startsWith ("#") then hex.drop 1 else hex
  if h.length = 6 then
    ⟨((jsParseIntHex (h.take 2)).getD 0 : ℚ) / 255,
     ((jsParseIntHex ((h.drop 2).take 2)).getD 0 : ℚ) / 255,
     ((jsParseIntHex ((h.drop 4).take 2)).getD 0 : ℚ) / 255⟩
  else if h.length = 3 then
    ⟨((jsParseIntHex (h.take 1 ++ h.take 1)).getD 0 : ℚ) / 255,
     ((jsParseIntHex ((h.drop 1).take 1 ++ (h.drop 1).take 1)).getD 0 : ℚ) / 255,
     ((jsParseIntHex ((h.drop 2).take 1 ++ (h.drop 2).take 1)).getD 0 : ℚ) / 255⟩
  else ⟨1, 1, 1⟩

/-- `src/math/utils.ts` `parseColorHex` — like `hexToColorRGB` but returning
0–255 channels with black as the invalid-length fallback. -/
def parseColorHex (color : String) : ℚ × ℚ × ℚ :=
  let h := if color.startsWith ("#") then color.drop 1 else color
  if h.length = 6 then
    (((jsParseIntHex (h.take 2)).getD 0 : ℚ),
     ((jsParseIntHex ((h.drop 2).take 2)).getD 0 : ℚ),
     ((jsParseIntHex ((h.drop 4).take 2)).getD 0 : ℚ))
  else if h.length = 3 then
    (((jsParseIntHex (h.take 1 ++ h.take 1)).getD 0 : ℚ),
     ((jsParseIntHex ((h.drop 1).take 1 ++ (h.drop 1).take 1)).getD 0 : ℚ),
     ((jsParseIntHex ((h.drop 2).take 1 ++ (h.drop 2).take 1)).getD 0 : ℚ))
  else (0, 0, 0)

/-- `src/math/projection.ts` — viewport in pixels. -/
structure Viewport where
  width : ℚ
  height : ℚ
deriving DecidableEq

/-- Projected point: screen pixels, clip-space `w`, behind flag. -/
structure ProjectedPoint where
  x : ℚ
  y : ℚ
  w : ℚ
  behind : Bool
deriving DecidableEq

/-- `ndcToScreen` — NDC in `[-1,1]` to pixels, y flipped. -/
def ndcToScreen (xNdc yNdc : ℚ) (viewport : Viewport) : Vec2 :=
  ⟨(xNdc + 1) * (1/2) * viewport.width,
   (1 - (yNdc + 1) * (1/2)) * viewport.height⟩

/-- `projectPoint` — transform through the MVP matrix, homogeneous divide,
classify behind-camera; `null` when clip-space `w` is zero. -/
def projectPoint (point : Vec3) (mvp : Mat4) (viewport : Viewport) :
    Option ProjectedPoint :=
  let clip := mvp.transformVec4 ⟨point.x, point.y, point.z, 1⟩
  if clip.w = 0 then none
  else
    let invW := 1 / clip.w
    let xNdc := clip.x * invW
    let yNdc := clip.y * invW
    let zNdc := clip.z * invW
    let behind := if clip.w < 0 ∨ zNdc < -1 ∨ 1 < zNdc then true else false
    let screen := ndcToScreen xNdc yNdc viewport
    some ⟨screen.x, screen.y, clip.w, behind⟩

/-- `src/math/frustum.ts` `isSphereInFrustum` — world bounding sphere against
the view frustum; `Math.tan(fovYRad/2)` and `Math.hypot(1, ·)` come from the
`FloatOps` parameter (`hypot(1, a) = sqrt(1 + a²)`). -/
def isSphereInFrustum (ops : FloatOps) (worldCenter : Vec3) (worldRadius : ℚ)
    (viewMatrix : Mat4) (fovYRad aspect near far : ℚ) : Bool :=
  let v := viewMatrix.transformVec4 ⟨worldCenter.x, worldCenter.y, worldCenter.z, 1⟩
  let cx := v.x
  let cy := v.y
  let cz := v.z
  if -near < cz - worldRadius then false
  else if cz + worldRadius < -far then false
  else
    let tanHalfFovY := ops.tan (fovYRad / 2)
    let a := aspect * tanHalfFovY
    let b := tanHalfFovY
    if worldRadius * ops.sqrt (1 + a * a) < cx + a * cz then false
    else if worldRadius * ops.sqrt (1 + a * a) < -cx + a * cz then false
    else if worldRadius * ops.sqrt (1 + b * b) < cy + b * cz then false
    else if worldRadius * ops.sqrt (1 + b * b) < -cy + b * cz then false
    else true

/-- JavaScript truthiness of an optional string (`undefined` and the empty
string are falsy). -/
def strTruthy : Option String → Bool
  | none => false
  | some s => !(s == "")

/-- A `{u, v}` texture coordinate. -/
structure UV where
  u : ℚ
  v : ℚ
deriving DecidableEq

/-- Modelled from the spec: the mesh-wide material of the current
`meshLoader.ts` (only older phases of that file are under `src/`); §3 and the
README give it a specular color and a shininess exponent, accessed by
`renderHelpers.ts` as `mesh.material.specular` / `mesh.material?.shininess`. -/
structure MeshMaterial where
  specular : String
  shininess : ℚ
deriving DecidableEq

/-- Modelled from the spec: the current `Polygon` record of `meshLoader.ts`
(only older phases of that file are under `src/`); §3 gives it vertex
indices, a fill color, an optional texture reference, optional per-vertex UV
indices and optional per-vertex normal indices, matching the fields
`renderHelpers.ts` reads. -/
structure Polygon where
  color : String
  vertexIndices : List ℕ
  normalIndices : Option (List ℕ) := none
  textureUrl : Option String := none
  uvIndices : Option (List ℕ) := none
deriving DecidableEq

/-- A 2D pixel buffer (`ImageData`): RGBA bytes in row-major order. -/
structure ImageData where
  width : ℕ
  height : ℕ
  data : List ℚ
deriving DecidableEq

/-- The `MeshLike` interface of `renderHelpers.ts` plus the `boundingRadius`
that `projectSceneToFilledPolygons` reads from the owning `Mesh` (§3: a
precomputed bounding radius, max distance from the local origin to any
vertex).  An empty `vertexNormals` list models both an absent and an empty
normals array (the source treats them identically). -/
structure MeshLike where
  vertices : List Vec3
  polygons : List Polygon
  vertexNormals : List Vec3 := []
  uvs : List UV := []
  material : Option MeshMaterial := none
  boundingRadius : ℚ

/-- Euler rotation in radians. -/
structure Euler where
  x : ℚ
  y : ℚ
  z : ℚ
deriving DecidableEq

/-- `src/core/Object3D.ts` (part of the repository outside `src/src/core` in
this snapshot) — a mesh instance with a transform. -/
structure Object3D where
  mesh : MeshLike
  position : Vec3
  rotation : Euler
  scale : Vec3

/-- `Object3D.getModelMatrix` — `T * (Rx * Ry * Rz) * S`. -/
def Object3D.getModelMatrix (ops : FloatOps) (o : Object3D) : Mat4 :=
  let T := Mat4.translation o.position.x o.position.y o.position.z
  let Rx := Mat4.rotationX ops o.rotation.x
  let Ry := Mat4.rotationY ops o.rotation.y
  let Rz := Mat4.rotationZ ops o.rotation.z
  let R := (Rx.multiply Ry).multiply Rz
  let S := Mat4.scaling o.scale.x o.scale.y o.scale.z
  (T.multiply R).multiply S

/-- `src/core/Scene.ts` — objects, camera, lights, ambient color. -/
structure Scene where
  objects : List Object3D
  camera : Camera
  lights : List Light
  ambientColor : ColorRGB

/-- Screen-space vertex with per-vertex color for Gouraud shading
(`renderHelpers.ts` `GouraudVertex`). -/
structure GouraudVertex where
  x : ℚ
  y : ℚ
  r : ℚ
  g : ℚ
  b : ℚ
  invW : Option ℚ := none
  u : Option ℚ := none
  v : Option ℚ := none
  sr : Option ℚ := none
  sg : Option ℚ := none
  sb : Option ℚ := none
deriving DecidableEq

/-- A filled polygon batch with depth key and stable tie-break index. -/
structure FilledPolygonBatch where
  vertices : List GouraudVertex
  depth : ℚ
  texture : Option ImageData := none
  batchIndex : ℕ
deriving DecidableEq

/-- Options of the scene-projection entry points. -/
structure ProjectSceneOptions where
  debugShowDirection : Bool := false
  applyPaintersAlgorithm : Bool := false
  applyBackFaceCulling : Bool := false
  textureMap : Option (List (String × ImageData)) := none

/-- Result of `projectSceneToFilledPolygons`. -/
structure ProjectSceneFilledResult where
  batches : List FilledPolygonBatch
  debugNormalSegments : List (ℚ × ℚ × ℚ × ℚ)

/-- `DEBUG_NORMAL_LENGTH = 0.4`. -/
def DEBUG_NORMAL_LENGTH : ℚ := 2 / 5

/-- `projectMeshVerticesFull` — project every mesh vertex, `null` for vertices
that cannot be projected or are behind the camera. -/
def projectMeshVerticesFull (mesh : MeshLike) (mvp : Mat4) (viewport : Viewport) :
    List (Option ProjectedPoint) :=
  mesh.vertices.map fun vertex =>
    match projectPoint vertex mvp viewport with
    | some p => if p.behind then none else some p
    | none => none

/-- `transformVerticesToCameraSpace` — `view * model` applied with `w = 1`. -/
def transformVerticesToCameraSpace (mesh : MeshLike) (viewModel : Mat4) : List Vec3 :=
  mesh.vertices.map fun v =>
    let c := viewModel.transformVec4 ⟨v.x, v.y, v.z, 1⟩
    ⟨c.x, c.y, c.z⟩

/-- `transformNormalsToCameraSpace` — normals through the inverse transpose,
renormalized; empty when the mesh has no vertex normals; untransformed copies
when the normal matrix is singular. -/
def transformNormalsToCameraSpace (ops : FloatOps) (mesh : MeshLike) (viewModel : Mat4) :
    List Vec3 :=
  if mesh.vertexNormals.length = 0 then []
  else
    match viewModel.normalMatrix with
    | none => mesh.vertexNormals
    | some normalMat =>
      mesh.vertexNormals.map fun n =>
        let c := normalMat.transformVec4 ⟨n.x, n.y, n.z, 0⟩
        let v : Vec3 := ⟨c.x, c.y, c.z⟩
        let len := v.length ops
        if EPS < len then v.normalize ops else ⟨0, 1, 0⟩

/-- `polygonDepth` — camera-space z of the farthest vertex (minimum z). -/
def polygonDepth (vertexIndices : List ℕ) (cameraSpaceVertices : List Vec3) : ℚ :=
  match vertexIndices with
  | [] => 0
  | i0 :: rest =>
    rest.foldl
      (fun minZ i =>
        let z := (cameraSpaceVertices.getD i ⟨0, 0, 0⟩).z
        if z < minZ then z else minZ)
      (cameraSpaceVertices.getD i0 ⟨0, 0, 0⟩).z

/-- `polygonNormal` — normalized `(v1-v0) × (v2-v0)` from the first three
polygon vertices, `null` when degenerate. -/
def polygonNormal (ops : FloatOps) (vertexIndices : List ℕ)
    (cameraSpaceVertices : List Vec3) : Option Vec3 :=
  if vertexIndices.length < 3 then none
  else
    let v0 := cameraSpaceVertices.getD (vertexIndices.getD 0 0) ⟨0, 0, 0⟩
    let v1 := cameraSpaceVertices.getD (vertexIndices.getD 1 0) ⟨0, 0, 0⟩
    let v2 := cameraSpaceVertices.getD (vertexIndices.getD 2 0) ⟨0, 0, 0⟩
    let e1 := v1.sub v0
    let e2 := v2.sub v0
    let n := e1.cross e2
    let len := n.length ops
    if len = 0 then none else some (n.normalize ops)

/-- `isBackFacing` — cull when `dot(v0, n) ≥ 0`; degenerate normals and
polygons with fewer than 3 indices are never culled. -/
def isBackFacing (vertexIndices : List ℕ) (cameraSpaceVertices : List Vec3)
    (normal : Option Vec3) : Bool :=
  match normal with
  | none => false
  | some n =>
    if vertexIndices.length < 3 then false
    else
      let v0 := cameraSpaceVertices.getD (vertexIndices.getD 0 0) ⟨0, 0, 0⟩
      if 0 ≤ v0.x * n.x + v0.y * n.y + v0.z * n.z then true else false

/-- `polygonCenter` — average of the polygon's camera-space vertices. -/
def polygonCenter (vertexIndices : List ℕ) (cameraSpaceVertices : List Vec3) : Vec3 :=
  match vertexIndices with
  | [] => ⟨0, 0, 0⟩
  | _ =>
    let s := vertexIndices.foldl
      (fun (acc : Vec3) i => acc.add (cameraSpaceVertices.getD i ⟨0, 0, 0⟩)) ⟨0, 0, 0⟩
    let n : ℚ := vertexIndices.length
    ⟨s.x / n, s.y / n, s.z / n⟩

/-- Body of the per-vertex loop of `collectPolygonGouraudVertices`: light one
polygon vertex (list index `k`, mesh index `i`, projected point `p`) and build
its `GouraudVertex`. -/
def gouraudVertexOf (ops : FloatOps) (useFaceNormal hasUVs useSeparateSpecular : Bool)
    (faceNormal : Option Vec3) (cameraSpaceVertices cameraSpaceNormals : List Vec3)
    (material : Material) (lights : List Light) (ambientColor : ColorRGB)
    (uvs : List UV) (uvIndices : Option (List ℕ)) (k i : ℕ) (p : ProjectedPoint) :
    GouraudVertex :=
  let pos := cameraSpaceVertices.getD i ⟨0, 0, 0⟩
  let normal :=
    if useFaceNormal then faceNormal.getD ⟨0, 1, 0⟩
    else
      match cameraSpaceNormals.get? i with
      | some nn => nn
      | none => faceNormal.getD ⟨0, 1, 0⟩
  let viewDir := pos.negate
  let ds := computeLightingDiffuseAndSpecular ops pos normal viewDir material lights ambientColor
  let rgb : ℚ × ℚ × ℚ :=
    if useSeparateSpecular then (ds.1.r * 255, ds.1.g * 255, ds.1.b * 255)
    else ((ds.1.r + ds.2.r) * 255, (ds.1.g + ds.2.g) * 255, (ds.1.b + ds.2.b) * 255)
  let srgb : Option (ℚ × ℚ × ℚ) :=
    if useSeparateSpecular then some (ds.2.r * 255, ds.2.g * 255, ds.2.b * 255) else none
  let vert : GouraudVertex :=
    { x := p.x, y := p.y,
      r := (jsRound (max 0 (min 255 rgb.1)) : ℚ),
      g := (jsRound (max 0 (min 255 rgb.2.1)) : ℚ),
      b := (jsRound (max 0 (min 255 rgb.2.2)) : ℚ),
      invW := some (1 / p.w) }
  let vert :=
    match srgb with
    | some s =>
      { vert with
        sr := some (jsRound (max 0 (min 255 s.1)) : ℚ),
        sg := some (jsRound (max 0 (min 255 s.2.1)) : ℚ),
        sb := some (jsRound (max 0 (min 255 s.2.2)) : ℚ) }
    | none => vert
  if hasUVs ∧ (uvIndices.getD []).getD k 0 < uvs.length then
    let uv := uvs.getD ((uvIndices.getD []).getD k 0) ⟨0, 0⟩
    { vert with u := some uv.u, v := some uv.v }
  else vert

/-- The early-exit per-vertex loop: `none` as soon as one step yields `none`,
otherwise the list of all step results in order. -/
def collectGo {α β : Type} (f : α → Option β) : List α → Option (List β)
  | [] => some []
  | x :: xs =>
    match f x with
    | none => none
    | some v =>
      match collectGo f xs with
      | none => none
      | some vs => some (v :: vs)

/-- `collectPolygonGouraudVertices` — build the lit screen-space vertices of
one polygon; `null` when the polygon has fewer than 2 indices or any of its
vertices failed projection (behind camera / zero `w`). -/
def collectPolygonGouraudVertices (ops : FloatOps)
    (projectedPoints : List (Option ProjectedPoint)) (polygon : Polygon)
    (cameraSpaceVertices cameraSpaceNormals : List Vec3) (faceNormal : Option Vec3)
    (material : Material) (lights : List Light) (ambientColor : ColorRGB)
    (uvs : List UV) (uvIndices : Option (List ℕ)) : Option (List GouraudVertex) :=
  let indices := polygon.vertexIndices
  if indices.length < 2 then none
  else
    let useFaceNormal := (cameraSpaceNormals.length == 0) && faceNormal.isSome
    let hasUVs := (if 0 < uvs.length then true else false) &&
      (match uvIndices with
       | some ui => ui.length == indices.length
       | none => false)
    let useSeparateSpecular := strTruthy polygon.textureUrl && hasUVs
    collectGo
      (fun ki =>
        match projectedPoints.getD ki.2 none with
        | none => none
        | some p =>
          some (gouraudVertexOf ops useFaceNormal hasUVs useSeparateSpecular faceNormal
            cameraSpaceVertices cameraSpaceNormals material lights ambientColor uvs
            uvIndices ki.1 ki.2 p))
      indices.enum

/-- The comparator passed to `batches.sort` in `projectSceneToFilledPolygons`:
depth difference, with insertion index as tie-break when the depths differ by
less than `1e-9`. -/
def cmpBatch (a b : FilledPolygonBatch) : ℚ :=
  let d := a.depth - b.depth
  if |d| < 1 / 10 ^ 9 then (a.batchIndex : ℚ) - (b.batchIndex : ℚ) else d

/-- Stable insertion step: place `x` before the first element strictly greater
than it (comparator < 0), after any element comparing equal. -/
def jsInsert {α : Type} (cmp : α → α → ℚ) (x : α) : List α → List α
  | [] => [x]
  | y :: ys => if cmp x y < 0 then x :: y :: ys else y :: jsInsert cmp x ys

/-- Model of `Array.prototype.sort(cmp)`: a stable sort (required since
ES2019).  For a consistent comparator every stable sort produces the same
list; the comparator's behaviour on inconsistent inputs (depth differences
straddling the `1e-9` tolerance) is exercised by the theorems below. -/
def jsSort {α : Type} (cmp : α → α → ℚ) (l : List α) : List α :=
  l.foldl (fun acc x => jsInsert cmp x acc) []

/-- `projectSceneToFilledPolygons` before the optional Painter's sort: frustum
cull per object, transform, per-polygon back-face cull, lighting, projection,
batch assembly, optional debug normal segments.  (The source keeps this loop
inline; it is split out here so that the sorted and unsorted runs share it.) -/
def projectSceneToFilledPolygonsCollect (ops : FloatOps) (scene : Scene)
    (viewProj : Mat4) (viewport : Viewport)
    (debugShowDirection applyBackFaceCulling : Bool)
    (textureMap : Option (List (String × ImageData))) : ProjectSceneFilledResult :=
  let camera := scene.camera
  let view := camera.getViewMatrix
  let aspect := viewport.width / viewport.height
  let projection := camera.getProjectionMatrix ops aspect
  let lightsCamera := transformLightsToCameraSpace scene.lights view
  let ambientColor := scene.ambientColor
  scene.objects.foldl
    (fun (acc : ProjectSceneFilledResult) object =>
      let mesh := object.mesh
      let worldCenter := object.position
      let worldRadius :=
        mesh.boundingRadius * max object.scale.x (max object.scale.y object.scale.z)
      if !(isSphereInFrustum ops worldCenter worldRadius view camera.fovYRad aspect
            camera.near camera.far) then acc
      else
        let model := object.getModelMatrix ops
        let viewModel := view.multiply model
        let mvp := viewProj.multiply model
        let cameraSpaceVertices := transformVerticesToCameraSpace mesh viewModel
        let cameraSpaceNormals := transformNormalsToCameraSpace ops mesh viewModel
        let projectedPoints := projectMeshVerticesFull mesh mvp viewport
        mesh.polygons.foldl
          (fun (acc : ProjectSceneFilledResult) polygon =>
            let faceNormal := polygonNormal ops polygon.vertexIndices cameraSpaceVertices
            if applyBackFaceCulling &&
                isBackFacing polygon.vertexIndices cameraSpaceVertices faceNormal then acc
            else
              let material : Material :=
                { diffuse := hexToColorRGB polygon.color,
                  specular :=
                    match mesh.material with
                    | some m => hexToColorRGB m.specular
                    | none => ⟨1/2, 1/2, 1/2⟩,
                  shininess :=
                    match mesh.material with
                    | some m => m.shininess
                    | none => 32,
                  emissive := none }
              let meshUvs := mesh.uvs
              let vertices := collectPolygonGouraudVertices ops projectedPoints polygon
                cameraSpaceVertices cameraSpaceNormals faceNormal material lightsCamera
                ambientColor meshUvs polygon.uvIndices
              let acc1 :=
                match vertices with
                | some vs =>
                  if 2 ≤ vs.length then
                    let depth := polygonDepth polygon.vertexIndices cameraSpaceVertices
                    let texture :=
                      if strTruthy polygon.textureUrl then
                        match polygon.textureUrl, textureMap with
                        | some url, some tm => List.lookup url tm
                        | _, _ => none
                      else none
                    { acc with
                      batches := acc.batches ++
                        [{ vertices := vs, depth := depth, texture := texture,
                           batchIndex := acc.batches.length }] }
                  else acc
                | none => acc
              if debugShowDirection then
                match faceNormal with
                | some fn =>
                  let center := polygonCenter polygon.vertexIndices cameraSpaceVertices
                  let endP := center.add (fn.scale DEBUG_NORMAL_LENGTH)
                  match projectPoint center projection viewport,
                      projectPoint endP projection viewport with
                  | some pS, some pE =>
                    if !pS.behind && !pE.behind then
                      { acc1 with
                        debugNormalSegments := acc1.debugNormalSegments ++
                          [(pS.x, pS.y, pE.x, pE.y)] }
                    else acc1
                  | _, _ => acc1
                | none => acc1
              else acc1)
          acc)
    ⟨[], []⟩

/-- `projectSceneToFilledPolygons` — the filled-pipeline entry point; when
`applyPaintersAlgorithm` is set the batches are sorted with `cmpBatch`. -/
def projectSceneToFilledPolygons (ops : FloatOps) (scene : Scene) (viewProj : Mat4)
    (viewport : Viewport) (options : ProjectSceneOptions) : ProjectSceneFilledResult :=
  let res := projectSceneToFilledPolygonsCollect ops scene viewProj viewport
    options.debugShowDirection options.applyBackFaceCulling options.textureMap
  if options.applyPaintersAlgorithm then
    { res with batches := jsSort cmpBatch res.batches }
  else res

/-- `src/core/Framebuffer.ts` — color buffer; `colorBuffer.data` holds RGBA
values in row-major order. -/
structure Framebuffer where
  width : ℕ
  height : ℕ
  colorBuffer : ImageData
deriving DecidableEq

/-- `Framebuffer.putPixel` — write one pixel; no-op when `(x, y)` is out of
bounds. -/
def Framebuffer.putPixel (fb : Framebuffer) (x y r g b : ℚ) : Framebuffer :=
  let ix := jsFloor x
  let iy := jsFloor y
  if ix < 0 ∨ (fb.width : ℤ) ≤ ix ∨ iy < 0 ∨ (fb.height : ℤ) ≤ iy then fb
  else
    let i := (iy.toNat * fb.width + ix.toNat) * 4
    { fb with colorBuffer := { fb.colorBuffer with
        data := ((((fb.colorBuffer.data.set i r).set (i + 1) g).set (i + 2) b).set (i + 3) 255) } }

/-- Modelled from the spec: `rasterizer.ts` writes through
`Framebuffer.putPixelUnsafe`, whose definition is not under `src/` (the
`Framebuffer.ts` present there is an earlier phase exposing only `putPixel`).
Spec §4.4: all three rasterizer variants write through a single set-pixel
operation that is a no-op when the target would be out of buffer bounds —
that is, the behaviour of `putPixel`.  (Renamed `putPixelRaw` here for
lexical reasons only.) -/
def Framebuffer.putPixelRaw (fb : Framebuffer) (x y r g b : ℚ) : Framebuffer :=
  let ix := jsFloor x
  let iy := jsFloor y
  if ix < 0 ∨ (fb.width : ℤ) ≤ ix ∨ iy < 0 ∨ (fb.height : ℤ) ≤ iy then fb
  else
    let i := (iy.toNat * fb.width + ix.toNat) * 4
    { fb with colorBuffer := { fb.colorBuffer with
        data := ((((fb.colorBuffer.data.set i r).set (i + 1) g).set (i + 2) b).set (i + 3) 255) } }

/-- `sampleTexture` — nearest-neighbor sampling with wraparound addressing:
`u, v` reduced modulo 1 into `[0,1)` before indexing. -/
def sampleTexture (texture : ImageData) (u v : ℚ) : ℚ × ℚ × ℚ :=
  let w := texture.width
  let h := texture.height
  let uu := jsMod (jsMod u 1 + 1) 1
  let vv := jsMod (jsMod v 1 + 1) 1
  let x := min ((w : ℤ) - 1) (max 0 ⌊uu * w⌋)
  let y := min ((h : ℤ) - 1) (max 0 ⌊vv * h⌋)
  let i := ((y * w + x) * 4).toNat
  (texture.data.getD i 0, texture.data.getD (i + 1) 0, texture.data.getD (i + 2) 0)

/-- One pixel write issued by a rasterizer variant: integer scan coordinates
and the RGB values passed to the set-pixel primitive. -/
structure PixelWrite where
  px : ℤ
  py : ℤ
  r : ℚ
  g : ℚ
  b : ℚ
deriving DecidableEq

/-- The integers from `lo` to `hi` inclusive (empty when `hi < lo`): the
values taken by a `for (let i = lo; i <= hi; i++)` loop. -/
def intRange (lo hi : ℤ) : List ℤ :=
  (List.range (hi + 1 - lo).toNat).map fun n => lo + n

/-- The x scan range shared by all three rasterizer variants:
`max(0, floor(min(xs)))` to `min(width - 1, ceil(max(xs)))`. -/
def bboxXRange (width : ℕ) (ax bx cx : ℚ) : List ℤ :=
  intRange (max 0 (jsFloor (min ax (min bx cx))))
    (min ((width : ℤ) - 1) (jsCeil (max ax (max bx cx))))

/-- The y scan range shared by all three rasterizer variants. -/
def bboxYRange (height : ℕ) (ay by_ cy : ℚ) : List ℤ :=
  intRange (max 0 (jsFloor (min ay (min by_ cy))))
    (min ((height : ℤ) - 1) (jsCeil (max ay (max by_ cy))))

/-- `rasterizeTriangle` (flat) — the pixel writes it issues, in scan order.
Barycentric inside test `u ≥ 0 ∧ v ≥ 0 ∧ u + v ≤ 1` at pixel centers;
degenerate triangles (`|denom| < 1e-10`) draw nothing. -/
def rasterizeTriangleWrites (width height : ℕ) (a b c : Vec2) (color : String) :
    List PixelWrite :=
  let rgb := parseColorHex color
  let abx := b.x - a.x
  let aby := b.y - a.y
  let acx := c.x - a.x
  let acy := c.y - a.y
  let denom := abx * acy - aby * acx
  if |denom| < 1 / 10 ^ 10 then []
  else
    (bboxYRange height a.y b.y c.y).flatMap fun (py : ℤ) =>
      (bboxXRange width a.x b.x c.x).filterMap fun (px : ℤ) =>
        let px_ := (px : ℚ) + 1/2
        let py_ := (py : ℚ) + 1/2
        let pax := px_ - a.x
        let pay := py_ - a.y
        let u := (pax * acy - pay * acx) / denom
        let v := (abx * pay - aby * pax) / denom
        if 0 ≤ u ∧ 0 ≤ v ∧ u + v ≤ 1 then some ⟨px, py, rgb.1, rgb.2.1, rgb.2.2⟩
        else none

/-- `rasterizeTriangle` — fold the writes through the set-pixel primitive. -/
def rasterizeTriangle (fb : Framebuffer) (a b c : Vec2) (color : String) : Framebuffer :=
  (rasterizeTriangleWrites fb.width fb.height a b c color).foldl
    (fun fb w => fb.putPixelRaw (w.px : ℚ) (w.py : ℚ) w.r w.g w.b) fb

/-- `rasterizeTriangleGouraud` — the pixel writes it issues: interpolated
per-vertex color, perspective-correct when all vertices carry a positive
`invW` (skipping pixels whose interpolated `invW` is non-positive), clamped
to 0–255 and rounded before the write. -/
def rasterizeTriangleGouraudWrites (width height : ℕ) (a b c : GouraudVertex) :
    List PixelWrite :=
  let abx := b.x - a.x
  let aby := b.y - a.y
  let acx := c.x - a.x
  let acy := c.y - a.y
  let denom := abx * acy - aby * acx
  if |denom| < 1 / 10 ^ 10 then []
  else
    let usePerspective := a.invW.isSome && b.invW.isSome && c.invW.isSome
    let aInv := a.invW.getD 0
    let bInv := b.invW.getD 0
    let cInv := c.invW.getD 0
    (bboxYRange height a.y b.y c.y).flatMap fun (py : ℤ) =>
      (bboxXRange width a.x b.x c.x).filterMap fun (px : ℤ) =>
        let px_ := (px : ℚ) + 1/2
        let py_ := (py : ℚ) + 1/2
        let pax := px_ - a.x
        let pay := py_ - a.y
        let u := (pax * acy - pay * acx) / denom
        let v := (abx * pay - aby * pax) / denom
        if 0 ≤ u ∧ 0 ≤ v ∧ u + v ≤ 1 then
          let w := 1 - u - v
          if usePerspective ∧ 0 < aInv ∧ 0 < bInv ∧ 0 < cInv then
            let invW := w * aInv + u * bInv + v * cInv
            if invW ≤ 0 then none
            else
              let r := (w * a.r * aInv + u * b.r * bInv + v * c.r * cInv) / invW
              let g := (w * a.g * aInv + u * b.g * bInv + v * c.g * cInv) / invW
              let blue := (w * a.b * aInv + u * b.b * bInv + v * c.b * cInv) / invW
              some ⟨px, py,
                (jsRound (max 0 (min 255 r)) : ℚ),
                (jsRound (max 0 (min 255 g)) : ℚ),
                (jsRound (max 0 (min 255 blue)) : ℚ)⟩
          else
            let r := w * a.r + u * b.r + v * c.r
            let g := w * a.g + u * b.g + v * c.g
            let blue := w * a.b + u * b.b + v * c.b
            some ⟨px, py,
              (jsRound (max 0 (min 255 r)) : ℚ),
              (jsRound (max 0 (min 255 g)) : ℚ),
              (jsRound (max 0 (min 255 blue)) : ℚ)⟩
        else none

/-- `rasterizeTriangleGouraud` — fold the writes through the set-pixel
primitive. -/
def rasterizeTriangleGouraud (fb : Framebuffer) (a b c : GouraudVertex) : Framebuffer :=
  (rasterizeTriangleGouraudWrites fb.width fb.height a b c).foldl
    (fun fb w => fb.putPixelRaw (w.px : ℚ) (w.py : ℚ) w.r w.g w.b) fb

/-- `rasterizeTriangleGouraudTextured` — the pixel writes it issues: like the
Gouraud variant but also interpolating UV (perspective-correct in the same
branch), sampling the texture and modulating it with the interpolated color. -/
def rasterizeTriangleGouraudTexturedWrites (width height : ℕ) (a b c : GouraudVertex)
    (texture : ImageData) : List PixelWrite :=
  let abx := b.x - a.x
  let aby := b.y - a.y
  let acx := c.x - a.x
  let acy := c.y - a.y
  let denom := abx * acy - aby * acx
  if |denom| < 1 / 10 ^ 10 then []
  else
    let usePerspective := a.invW.isSome && b.invW.isSome && c.invW.isSome
    let hasUV := a.u.isSome && a.v.isSome && b.u.isSome && b.v.isSome &&
      c.u.isSome && c.v.isSome
    let aInv := a.invW.getD 0
    let bInv := b.invW.getD 0
    let cInv := c.invW.getD 0
    (bboxYRange height a.y b.y c.y).flatMap fun (py : ℤ) =>
      (bboxXRange width a.x b.x c.x).filterMap fun (px : ℤ) =>
        let px_ := (px : ℚ) + 1/2
        let py_ := (py : ℚ) + 1/2
        let pax := px_ - a.x
        let pay := py_ - a.y
        let u := (pax * acy - pay * acx) / denom
        let v := (abx * pay - aby * pax) / denom
        if 0 ≤ u ∧ 0 ≤ v ∧ u + v ≤ 1 then
          let w := 1 - u - v
          let interp : Option (ℚ × ℚ × ℚ × ℚ × ℚ) :=
            if usePerspective ∧ 0 < aInv ∧ 0 < bInv ∧ 0 < cInv then
              let invW := w * aInv + u * bInv + v * cInv
              if invW ≤ 0 then none
              else
                some ((w * a.r * aInv + u * b.r * bInv + v * c.r * cInv) / invW,
                  (w * a.g * aInv + u * b.g * bInv + v * c.g * cInv) / invW,
                  (w * a.b * aInv + u * b.b * bInv + v * c.b * cInv) / invW,
                  if hasUV then
                    (w * a.u.getD 0 * aInv + u * b.u.getD 0 * bInv + v * c.u.getD 0 * cInv) / invW
                  else 0,
                  if hasUV then
                    (w * a.v.getD 0 * aInv + u * b.v.getD 0 * bInv + v * c.v.getD 0 * cInv) / invW
                  else 0)
            else
              some (w * a.r + u * b.r + v * c.r,
                w * a.g + u * b.g + v * c.g,
                w * a.b + u * b.b + v * c.b,
                if hasUV then w * a.u.getD 0 + u * b.u.getD 0 + v * c.u.getD 0 else 0,
                if hasUV then w * a.v.getD 0 + u * b.v.getD 0 + v * c.v.getD 0 else 0)
          match interp with
          | none => none
          | some (r, g, blue, uTex, vTex) =>
            let t := sampleTexture texture uTex vTex
            some ⟨px, py,
              (jsRound (max 0 (min 255 (t.1 * r / 255))) : ℚ),
              (jsRound (max 0 (min 255 (t.2.1 * g / 255))) : ℚ),
              (jsRound (max 0 (min 255 (t.2.2 * blue / 255))) : ℚ)⟩
        else none

/-- `rasterizeTriangleGouraudTextured` — fold the writes through the set-pixel
primitive. -/
def rasterizeTriangleGouraudTextured (fb : Framebuffer) (a b c : GouraudVertex)
    (texture : ImageData) : Framebuffer :=
  (rasterizeTriangleGouraudTexturedWrites fb.width fb.height a b c texture).foldl
    (fun fb w => fb.putPixelRaw (w.px : ℚ) (w.py : ℚ) w.r w.g w.b) fb

/-- Concrete square-root surrogate used to instantiate `FloatOps.sqrt` on
specific inputs: a finite table that is exact (agrees with the real square
root) at every point the concrete evaluations below consume —
`√1 = 1`, `√(25/16) = 5/4`, `√25 = 5`, `√169 = 13`, `√20736 = 144`.  The
zero default is only ever reached in dead code (view-direction
normalizations of scenes whose lighting has no lights, so the normalized
vector is never consumed). -/
def sqrtTable : ℚ → ℚ := fun q =>
  if q = 1 then 1 else if q = 25/16 then 5/4 else if q = 25 then 5
  else if q = 169 then 13 else if q = 20736 then 144 else 0

/-- Concrete `FloatOps` instance for evaluating the embedding on specific
inputs: `sqrtTable` is exact at every consumed point; `tan` is the constant
`3/4` (the exact value of `tan` at `fovY/2 ≈ 0.6435` radians used by the
concrete cameras below); `sin`/`cos` are small-angle surrogates that are
exact at `0`; `pow` is never consumed by the tests (they use shininess `0`
or no lights). -/
def testOps : FloatOps where
  sqrt := sqrtTable
  tan := fun _ => 3/4
  sin := fun q => if q = 0 then 0 else q
  cos := fun q => if q = 0 then 1 else 1 - q * q / 2
  pow := fun _ _ => 0

/-- `testOps` with a cosine surrogate that is exact at the three points the
spot-light test consumes (`cos 1/2 = 4/5`, `cos 3/4 = 3/5`, `cos 1 = 0` —
strictly decreasing and nonnegative on `[0, 1]`, like the real cosine there;
the real values `0.8776…, 0.7317…, 0.5403…` have no rational presentation,
and every ordering fact the spot theorems hypothesise holds for them as
well). -/
def spotOps : FloatOps :=
  { testOps with
    cos := fun q =>
      if q = 1/2 then 4/5 else if q = 3/4 then 3/5 else if q = 1 then 0
      else 1 - q * q / 2 }

/-- A concrete 2×2 framebuffer (RGBA, 16 entries) for evaluating the
set-pixel primitive. -/
def testFb : Framebuffer :=
  ⟨2, 2, ⟨2, 2, [0,0,0,0, 0,0,0,0, 0,0,0,0, 0,0,0,0]⟩⟩

/-- The camera-space test triangle of the spec's back-face property:
`(0,0,-5), (1,0,-5), (0,1,-5)`. -/
def backfaceTri : List Vec3 := [⟨0, 0, -5⟩, ⟨1, 0, -5⟩, ⟨0, 1, -5⟩]

/-- Concrete scene for exercising the Painter's sort: one object holding two
triangles, both facing the camera at depths `-5` and `-5 - 1e-10` (closer
one first), no lights, ambient black. -/
def c1Mesh : MeshLike :=
  { vertices := [⟨0,0,-5⟩, ⟨1,0,-5⟩, ⟨0,1,-5⟩,
                 ⟨0,0,-50000000001/10000000000⟩, ⟨1,0,-50000000001/10000000000⟩,
                 ⟨0,1,-50000000001/10000000000⟩],
    polygons := [{ color := "#ffffff", vertexIndices := [0,1,2] },
                 { color := "#ffffff", vertexIndices := [3,4,5] }],
    boundingRadius := 51/10 }

/-- Camera at the origin looking down `-Z` (`fovY ≈ 1.287` rad, near 1,
far 100). -/
def c1Camera : Camera :=
  { position := ⟨0,0,0⟩, orientation := Quat.identity, fovYRad := 1287/1000,
    near := 1, far := 100 }

/-- The scene holding `c1Mesh` untransformed. -/
def c1Scene : Scene :=
  { objects := [{ mesh := c1Mesh, position := ⟨0,0,0⟩, rotation := ⟨0,0,0⟩, scale := ⟨1,1,1⟩ }],
    camera := c1Camera, lights := [], ambientColor := ⟨0,0,0⟩ }

/-- A square 100×100 viewport. -/
def c1Viewport : Viewport := ⟨100, 100⟩

/-- `projection * view`, as the render loop builds it. -/
def c1ViewProj : Mat4 :=
  (c1Camera.getProjectionMatrix testOps 1).multiply c1Camera.getViewMatrix

/-- The projection matrix of `c1Camera` at aspect 1 (`f = 1/(3/4) = 4/3`). -/
def c1Pmat : Mat4 := ⟨4/3, 0, 0, 0, 0, 4/3, 0, 0, 0, 0, -101/99, -1, 0, 0, -200/99, 0⟩

/-- Camera-space vertices of `c1Mesh` (the transform is the identity). -/
def c1Csv : List Vec3 :=
  [⟨0,0,-5⟩, ⟨1,0,-5⟩, ⟨0,1,-5⟩,
   ⟨0,0,-50000000001/10000000000⟩, ⟨1,0,-50000000001/10000000000⟩,
   ⟨0,1,-50000000001/10000000000⟩]

/-- Projected points of `c1Mesh` through `c1Pmat`. -/
def c1Pts : List (Option ProjectedPoint) :=
  [some ⟨50, 50, 5, false⟩, some ⟨190/3, 50, 5, false⟩, some ⟨50, 110/3, 5, false⟩,
   some ⟨50, 50, 50000000001/10000000000, false⟩,
   some ⟨9500000000150/150000000003, 50, 50000000001/10000000000, false⟩,
   some ⟨50, 5500000000150/150000000003, 50000000001/10000000000, false⟩]

/-- Gouraud vertices of the first (nearer) triangle. -/
def c1V1 : List GouraudVertex :=
  [⟨50, 50, 0, 0, 0, some (1/5), none, none, none, none, none⟩,
   ⟨190/3, 50, 0, 0, 0, some (1/5), none, none, none, none, none⟩,
   ⟨50, 110/3, 0, 0, 0, some (1/5), none, none, none, none, none⟩]

/-- Gouraud vertices of the second (farther) triangle. -/
def c1V2 : List GouraudVertex :=
  [⟨50, 50, 0, 0, 0, some (10000000000/50000000001), none, none, none, none, none⟩,
   ⟨9500000000150/150000000003, 50, 0, 0, 0, some (10000000000/50000000001),
     none, none, none, none, none⟩,
   ⟨50, 5500000000150/150000000003, 0, 0, 0, some (10000000000/50000000001),
     none, none, none, none, none⟩]

/-- The double reduction `((u % 1) + 1) % 1` performed by `sampleTexture`
equals the fractional part `u - ⌊u⌋`, for every rational `u`. -/
theorem jsWrap_eq_fract (u : ℚ) : jsMod (jsMod u 1 + 1) 1 = Int.fract u := by
  have hmod : ∀ a : ℚ, jsMod a 1 = a - (jsTrunc a : ℚ) := by
    intro a; simp [jsMod, jsTrunc]
  rcases le_or_lt 0 u with h | h
  · have h1 : jsMod u 1 = Int.fract u := by
      rw [hmod, jsTrunc, if_pos h]; rfl
    rw [h1, hmod, jsTrunc,
      if_pos (by linarith [Int.fract_nonneg u] : (0:ℚ) ≤ Int.fract u + 1)]
    rw [Int.floor_add_one,
      Int.floor_eq_zero_iff.mpr ⟨Int.fract_nonneg u, Int.fract_lt_one u⟩]
    push_cast
    ring
  · have h1 : jsMod u 1 = -Int.fract (-u) := by
      rw [hmod, jsTrunc, if_neg (not_le.mpr h)]
      have hcl : (⌈u⌉ : ℚ) = -(⌊-u⌋ : ℚ) := by
        rw [show u = -(-u) by ring, Int.ceil_neg]
        push_cast
        ring_nf
      rw [hcl, Int.fract]
      ring
    rw [h1]
    rcases eq_or_lt_of_le (Int.fract_nonneg (-u)) with h0 | h0
    · rw [← h0]
      have hu0 : Int.fract u = 0 := Int.fract_neg_eq_zero.mp h0.symm
      rw [hu0, hmod, jsTrunc, if_pos (by norm_num : (0:ℚ) ≤ -0 + 1)]
      norm_num
    · have hlt : Int.fract (-u) < 1 := Int.fract_lt_one (-u)
      have hne : Int.fract u ≠ 0 := by
        intro hz
        exact absurd (Int.fract_neg_eq_zero.mpr hz) (ne_of_gt h0)
      rw [hmod, jsTrunc,
        if_pos (by linarith : (0:ℚ) ≤ -Int.fract (-u) + 1)]
      rw [Int.floor_eq_zero_iff.mpr ⟨by linarith, by linarith⟩]
      rw [Int.fract_neg hne]
      push_cast
      ring

/-- C8: texture sampling is periodic with period 1 in both coordinates; in
particular sampling at `u = 1.25` equals sampling at `u = 0.25` (`u` and `v`
are reduced modulo 1 into `[0,1)` before nearest-neighbor indexing). -/
theorem c8_texture_sampling_wraparound (texture : ImageData) (u v : ℚ) :
    sampleTexture texture (u + 1) v = sampleTexture texture u v ∧
    sampleTexture texture u (v + 1) = sampleTexture texture u v ∧
    sampleTexture texture (5/4) v = sampleTexture texture (1/4) v := by
  have key : ∀ w : ℚ, jsMod (jsMod w 1 + 1) 1 = Int.fract w := jsWrap_eq_fract
  have h_eq : Int.fract (5/4 : ℚ) = Int.fract (1/4 : ℚ) := by
    rw [show (5/4 : ℚ) = 1/4 + 1 by norm_num, Int.fract_add_one]
  refine ⟨?_, ?_, ?_⟩ <;>
    simp only [sampleTexture, key, Int.fract_add_one, h_eq]

/-- C9: the set-pixel primitive the rasterizer variants write through is a
no-op for out-of-range coordinates (the color buffer is left entirely
unchanged) and writes exactly the one addressed pixel for in-range
coordinates; the rasterizer's `putPixelUnsafe` (`putPixelRaw` here, modelled
from the spec) coincides with the `putPixel` of `Framebuffer.ts`. -/
theorem c9_putpixel_bounds (fb : Framebuffer) (x y r g b : ℚ)
    (hlen : fb.colorBuffer.data.length = 4 * fb.width * fb.height) :
    (∀ x0 y0 r0 g0 b0 : ℚ,
      Framebuffer.putPixelRaw fb x0 y0 r0 g0 b0 = Framebuffer.putPixel fb x0 y0 r0 g0 b0) ∧
    ((⌊x⌋ < 0 ∨ (fb.width : ℤ) ≤ ⌊x⌋ ∨ ⌊y⌋ < 0 ∨ (fb.height : ℤ) ≤ ⌊y⌋) →
      fb.putPixel x y r g b = fb) ∧
    (0 ≤ ⌊x⌋ → ⌊x⌋ < (fb.width : ℤ) → 0 ≤ ⌊y⌋ → ⌊y⌋ < (fb.height : ℤ) →
      (fb.putPixel x y r g b).width = fb.width ∧
      (fb.putPixel x y r g b).height = fb.height ∧
      ((fb.putPixel x y r g b).colorBuffer.data)[(⌊y⌋.toNat * fb.width + ⌊x⌋.toNat) * 4]?
        = some r ∧
      ((fb.putPixel x y r g b).colorBuffer.data)[(⌊y⌋.toNat * fb.width + ⌊x⌋.toNat) * 4 + 1]?
        = some g ∧
      ((fb.putPixel x y r g b).colorBuffer.data)[(⌊y⌋.toNat * fb.width + ⌊x⌋.toNat) * 4 + 2]?
        = some b ∧
      ((fb.putPixel x y r g b).colorBuffer.data)[(⌊y⌋.toNat * fb.width + ⌊x⌋.toNat) * 4 + 3]?
        = some 255 ∧
      ∀ j : ℕ, (j < (⌊y⌋.toNat * fb.width + ⌊x⌋.toNat) * 4 ∨
          (⌊y⌋.toNat * fb.width + ⌊x⌋.toNat) * 4 + 3 < j) →
        ((fb.putPixel x y r g b).colorBuffer.data)[j]? = (fb.colorBuffer.data)[j]?) := by
  refine ⟨fun x0 y0 r0 g0 b0 => rfl, ?_, ?_⟩
  · intro h
    rw [Framebuffer.putPixel]
    simp only [jsFloor]
    rw [if_pos h]
  · intro hx0 hxw hy0 hyh
    have hguard : ¬(⌊x⌋ < 0 ∨ (fb.width : ℤ) ≤ ⌊x⌋ ∨ ⌊y⌋ < 0 ∨ (fb.height : ℤ) ≤ ⌊y⌋) := by
      push_neg
      exact ⟨hx0, hxw, hy0, hyh⟩
    have hix : ⌊x⌋.toNat < fb.width := by omega
    have hiy : ⌊y⌋.toNat < fb.height := by omega
    set i := (⌊y⌋.toNat * fb.width + ⌊x⌋.toNat) * 4 with hi
    have hibound : i + 3 < fb.colorBuffer.data.length := by
      rw [hlen]
      have h1 : ⌊y⌋.toNat * fb.width + ⌊x⌋.toNat < fb.width * fb.height := by
        calc ⌊y⌋.toNat * fb.width + ⌊x⌋.toNat
            < ⌊y⌋.toNat * fb.width + fb.width := by omega
          _ = (⌊y⌋.toNat + 1) * fb.width := by ring
          _ ≤ fb.height * fb.width := Nat.mul_le_mul_right _ (by omega)
          _ = fb.width * fb.height := Nat.mul_comm _ _
      have h2 : 4 * fb.width * fb.height = 4 * (fb.width * fb.height) := by ring
      omega
    have hres : (fb.putPixel x y r g b).colorBuffer.data =
        ((((fb.colorBuffer.data.set i r).set (i + 1) g).set (i + 2) b).set (i + 3) 255) := by
      rw [Framebuffer.putPixel]
      simp only [jsFloor]
      rw [if_neg hguard]
    have hwidth : (fb.putPixel x y r g b).width = fb.width := by
      rw [Framebuffer.putPixel]; simp only [jsFloor]; rw [if_neg hguard]
    have hheight : (fb.putPixel x y r g b).height = fb.height := by
      rw [Framebuffer.putPixel]; simp only [jsFloor]; rw [if_neg hguard]
    refine ⟨hwidth, hheight, ?_, ?_, ?_, ?_, ?_⟩
    · rw [hres]
      rw [List.getElem?_set_ne (by omega), List.getElem?_set_ne (by omega),
        List.getElem?_set_ne (by omega)]
      exact List.getElem?_set_eq_of_lt _ (by omega)
    · rw [hres]
      rw [List.getElem?_set_ne (by omega), List.getElem?_set_ne (by omega)]
      refine List.getElem?_set_eq_of_lt _ ?_
      simp only [List.length_set]
      omega
    · rw [hres]
      rw [List.getElem?_set_ne (by omega)]
      refine List.getElem?_set_eq_of_lt _ ?_
      simp only [List.length_set]
      omega
    · rw [hres]
      refine List.getElem?_set_eq_of_lt _ ?_
      simp only [List.length_set]
      omega
    · intro j hj
      rw [hres]
      rw [List.getElem?_set_ne (by omega), List.getElem?_set_ne (by omega),
        List.getElem?_set_ne (by omega), List.getElem?_set_ne (by omega)]

/-- Witness for C9 at a concrete framebuffer: writing at `(-1, 0)` leaves the
buffer unchanged, and writing at `(1/2, 1)` stores the red value at data
index 8 (pixel `(0, 1)` of the 2×2 buffer). -/
theorem c9_putpixel_bounds_witness :
    testFb.colorBuffer.data.length = 4 * testFb.width * testFb.height ∧
    testFb.putPixel (-1) 0 5 6 7 = testFb ∧
    ((testFb.putPixel (1/2) 1 5 6 7).colorBuffer.data)[8]? = some 5 := by
  refine ⟨by decide, ?_, ?_⟩
  · exact (c9_putpixel_bounds testFb (-1) 0 5 6 7 (by decide)).2.1
      (Or.inl (by norm_num))
  · have h := (c9_putpixel_bounds testFb (1/2) 1 5 6 7 (by decide)).2.2
      (by norm_num) (by norm_num [testFb]) (by norm_num) (by norm_num [testFb])
    have h8 : ((⌊(1:ℚ)⌋.toNat * testFb.width + ⌊(1/2:ℚ)⌋.toNat) * 4) = 8 := by
      norm_num [testFb]
    have h5 := h.2.2.1
    rw [h8] at h5
    exact h5

/-- C3: the back-face test never culls a polygon with fewer than 3 vertex
indices or a degenerate face normal; otherwise it classifies the polygon as
back-facing exactly when the dot product of the first vertex's camera-space
position with the face normal is non-negative.  In particular the triangle
`(0,0,-5), (1,0,-5), (0,1,-5)` is front-facing and its reversed winding is
back-facing. -/
theorem c3_backface_classification (ops : FloatOps) (hs : ops.sqrt 1 = 1) :
    (∀ (indices : List ℕ) (csv : List Vec3),
      (indices.length < 3 ∨ polygonNormal ops indices csv = none) →
      isBackFacing indices csv (polygonNormal ops indices csv) = false) ∧
    (∀ (indices : List ℕ) (csv : List Vec3) (n : Vec3),
      polygonNormal ops indices csv = some n → 3 ≤ indices.length →
      (isBackFacing indices csv (some n) = true ↔
        0 ≤ (csv.getD (indices.getD 0 0) ⟨0, 0, 0⟩).dot n)) ∧
    isBackFacing [0, 1, 2] backfaceTri (polygonNormal ops [0, 1, 2] backfaceTri) = false ∧
    isBackFacing [2, 1, 0] backfaceTri (polygonNormal ops [2, 1, 0] backfaceTri) = true := by
  have hfront : polygonNormal ops [0, 1, 2] backfaceTri = some ⟨0, 0, 1⟩ := by
    simp only [polygonNormal, backfaceTri, Vec3.sub, Vec3.cross, Vec3.length,
      Vec3.lengthSq, Vec3.dot, Vec3.normalize, Vec3.scale]
    norm_num [hs]
  have hback : polygonNormal ops [2, 1, 0] backfaceTri = some ⟨0, 0, -1⟩ := by
    simp only [polygonNormal, backfaceTri, Vec3.sub, Vec3.cross, Vec3.length,
      Vec3.lengthSq, Vec3.dot, Vec3.normalize, Vec3.scale]
    norm_num [hs]
  refine ⟨?_, ?_, ?_, ?_⟩
  · intro indices csv h
    rcases h with h | h
    · have hnone : polygonNormal ops indices csv = none := by
        rw [polygonNormal, if_pos h]
      rw [hnone, isBackFacing]
    · rw [h, isBackFacing]
  · intro indices csv n _ hlen
    rw [isBackFacing]
    rw [if_neg (by omega : ¬ indices.length < 3)]
    simp [Vec3.dot]
  · rw [hfront]
    with_unfolding_all decide
  · rw [hback]
    with_unfolding_all decide

/-- Witness for C3 at the concrete operations `testOps` (whose square root is
exact at 1): the spec's triangle is front-facing, its reversed winding
back-facing. -/
theorem c3_backface_classification_witness :
    testOps.sqrt 1 = 1 ∧
    isBackFacing [0, 1, 2] backfaceTri (polygonNormal testOps [0, 1, 2] backfaceTri) = false ∧
    isBackFacing [2, 1, 0] backfaceTri (polygonNormal testOps [2, 1, 0] backfaceTri) = true :=
  ⟨by with_unfolding_all decide,
    (c3_backface_classification testOps (by with_unfolding_all decide)).2.2.1,
    (c3_backface_classification testOps (by with_unfolding_all decide)).2.2.2⟩

/-- `jsInsert` only rearranges: the result is a permutation of `x :: l`. -/
theorem jsInsert_perm {α : Type} (cmp : α → α → ℚ) (x : α) (l : List α) :
    (jsInsert cmp x l).Perm (x :: l) := by
  induction l with
  | nil => simp [jsInsert]
  | cons y ys ih =>
    rw [jsInsert]
    split
    · exact List.Perm.refl _
    · exact (ih.cons y).trans (List.Perm.swap x y ys)

/-- `jsSort` is a permutation of its input. -/
theorem jsSort_perm {α : Type} (cmp : α → α → ℚ) (l : List α) :
    (jsSort cmp l).Perm l := by
  have key : ∀ (l acc : List α),
      (List.foldl (fun acc x => jsInsert cmp x acc) acc l).Perm (acc ++ l) := by
    intro l
    induction l with
    | nil => intro acc; simp
    | cons x xs ih =>
      intro acc
      rw [List.foldl_cons]
      refine (ih (jsInsert cmp x acc)).trans ?_
      refine (List.Perm.append_right xs ((jsInsert_perm cmp x acc))).trans ?_
      exact List.perm_middle.symm
  simpa using key l []

/-- Inserting into a list whose adjacent pairs satisfy `cmp ≤ 0` preserves
that property, provided the comparator is sign-antisymmetric. -/
theorem jsInsert_chain {α : Type} (cmp : α → α → ℚ)
    (hflip : ∀ a b, ¬ (cmp a b < 0) → cmp b a ≤ 0) (x : α) (l : List α)
    (hl : l.Chain' (fun a b => cmp a b ≤ 0)) :
    (jsInsert cmp x l).Chain' (fun a b => cmp a b ≤ 0) := by
  induction l with
  | nil => simp [jsInsert]
  | cons y ys ih =>
    rw [jsInsert]
    split
    · next h =>
      exact List.chain'_cons.mpr ⟨le_of_lt h, hl⟩
    · next h =>
      cases ys with
      | nil =>
        simp only [jsInsert]
        exact List.chain'_cons.mpr ⟨hflip x y h, List.chain'_singleton x⟩
      | cons z zs =>
        have htail : (z :: zs).Chain' (fun a b => cmp a b ≤ 0) :=
          (List.chain'_cons.mp hl).2
        have hyz : cmp y z ≤ 0 := (List.chain'_cons.mp hl).1
        have hins := ih htail
        rw [jsInsert] at hins ⊢
        split
        · next h2 =>
          exact List.chain'_cons.mpr ⟨hflip x y h, List.chain'_cons.mpr ⟨le_of_lt h2, htail⟩⟩
        · next h2 =>
          rw [if_neg h2] at hins
          exact List.chain'_cons.mpr ⟨hyz, hins⟩

/-- `jsSort` output has `cmp ≤ 0` between every adjacent pair, for a
sign-antisymmetric comparator. -/
theorem jsSort_chain {α : Type} (cmp : α → α → ℚ)
    (hflip : ∀ a b, ¬ (cmp a b < 0) → cmp b a ≤ 0) (l : List α) :
    (jsSort cmp l).Chain' (fun a b => cmp a b ≤ 0) := by
  have key : ∀ (l acc : List α), acc.Chain' (fun a b => cmp a b ≤ 0) →
      (List.foldl (fun acc x => jsInsert cmp x acc) acc l).Chain'
        (fun a b => cmp a b ≤ 0) := by
    intro l
    induction l with
    | nil => intro acc h; simpa using h
    | cons x xs ih =>
      intro acc h
      rw [List.foldl_cons]
      exact ih (jsInsert cmp x acc) (jsInsert_chain cmp hflip x acc h)
  exact key l [] (List.chain'_nil)

/-- The batch comparator is sign-antisymmetric. -/
theorem cmpBatch_flip (a b : FilledPolygonBatch) (h : ¬ (cmpBatch a b < 0)) :
    cmpBatch b a ≤ 0 := by
  simp only [cmpBatch] at h ⊢
  rw [show b.depth - a.depth = -(a.depth - b.depth) by ring, abs_neg]
  split at h
  · next hc =>
    rw [if_pos hc]
    push_neg at h
    linarith
  · next hc =>
    rw [if_neg hc]
    push_neg at h
    linarith

/-- `cmpBatch a b ≤ 0` unfolded into the order it imposes: either the depths
differ by at least `1e-9` with `a` farther, or they differ by less than
`1e-9` and `a` was inserted earlier. -/
theorem cmpBatch_le_iff (a b : FilledPolygonBatch) :
    cmpBatch a b ≤ 0 ↔
      (a.depth - b.depth < 1/10^9 ∧
        (|a.depth - b.depth| < 1/10^9 → a.batchIndex ≤ b.batchIndex)) := by
  simp only [cmpBatch]
  split
  · next hc =>
    constructor
    · intro h
      refine ⟨lt_of_le_of_lt (le_abs_self _) hc, fun _ => ?_⟩
      have := sub_nonpos.mp h
      exact_mod_cast this
    · rintro ⟨-, h2⟩
      have := h2 hc
      simpa [sub_nonpos] using (Nat.cast_le (α := ℚ)).mpr this
  · next hc =>
    push_neg at hc
    constructor
    · intro h
      exact ⟨lt_of_le_of_lt h (by norm_num), fun habs => absurd habs (not_lt.mpr hc)⟩
    · rintro ⟨h1, -⟩
      rcases le_or_lt (a.depth - b.depth) 0 with h | h
      · exact h
      · have : |a.depth - b.depth| = a.depth - b.depth := abs_of_pos h
        rw [this] at hc
        linarith

/-- C1 (amended): with `applyPaintersAlgorithm` enabled the batch list of
`projectSceneToFilledPolygons` is a permutation of the unsorted batch list
in which every adjacent pair either differs in depth key by at least `1e-9`
with the earlier batch farther (smaller depth), or differs by less than
`1e-9` and keeps insertion order (smaller batch index first).  Ascending
order of the depth key itself is, however, not guaranteed when distinct
depth keys differ by less than the `1e-9` tolerance (see the
counterexample). -/
theorem c1_painters_sort_amended (ops : FloatOps) (scene : Scene) (viewProj : Mat4)
    (viewport : Viewport) (dbg cull : Bool)
    (tm : Option (List (String × ImageData))) :
    ((projectSceneToFilledPolygons ops scene viewProj viewport
        ⟨dbg, true, cull, tm⟩).batches.Chain'
      (fun A B => A.depth - B.depth < 1/10^9 ∧
        (|A.depth - B.depth| < 1/10^9 → A.batchIndex ≤ B.batchIndex))) ∧
    ((projectSceneToFilledPolygons ops scene viewProj viewport
        ⟨dbg, true, cull, tm⟩).batches.Perm
      (projectSceneToFilledPolygons ops scene viewProj viewport
        ⟨dbg, false, cull, tm⟩).batches) := by
  have heq : (projectSceneToFilledPolygons ops scene viewProj viewport
      ⟨dbg, true, cull, tm⟩).batches =
      jsSort cmpBatch (projectSceneToFilledPolygonsCollect ops scene viewProj viewport
        dbg cull tm).batches := by
    simp [projectSceneToFilledPolygons]
  have heq2 : (projectSceneToFilledPolygons ops scene viewProj viewport
      ⟨dbg, false, cull, tm⟩).batches =
      (projectSceneToFilledPolygonsCollect ops scene viewProj viewport
        dbg cull tm).batches := by
    simp [projectSceneToFilledPolygons]
  constructor
  · rw [heq]
    exact (jsSort_chain cmpBatch cmpBatch_flip _).imp
      (fun a b h => (cmpBatch_le_iff a b).mp h)
  · rw [heq, heq2]
    exact jsSort_perm cmpBatch _

/-- With no lights, the separated lighting result is just the clamped
ambient·diffuse product (and black specular). -/
theorem computeLightingDS_no_lights (ops : FloatOps) (pos n v : Vec3) (mat : Material)
    (amb : ColorRGB) (hem : mat.emissive = none) :
    computeLightingDiffuseAndSpecular ops pos n v mat [] amb =
      (clampColor ⟨amb.r * mat.diffuse.r, amb.g * mat.diffuse.g, amb.b * mat.diffuse.b⟩,
       clampColor ⟨0, 0, 0⟩) := by
  simp [computeLightingDiffuseAndSpecular, computeLightingComponents, hem]

/-- Evaluation of the batch-collection loop on the concrete two-triangle
scene: the batches appear in mesh order with depth keys `-5` (batch 0) and
`-5 - 1e-10` (batch 1). -/
theorem c1CollectEval :
    projectSceneToFilledPolygonsCollect testOps c1Scene c1ViewProj c1Viewport
      false false none =
    ⟨[⟨c1V1, -5, none, 0⟩, ⟨c1V2, -50000000001/10000000000, none, 1⟩], []⟩ := by
  have hhex : hexToColorRGB "#ffffff" = ⟨1, 1, 1⟩ := by with_unfolding_all decide
  have hview : c1Camera.getViewMatrix = Mat4.identity := by with_unfolding_all decide
  have hproj1 : c1Camera.getProjectionMatrix testOps 1 = c1Pmat := by
    with_unfolding_all decide
  have hmul1 : c1ViewProj.multiply Mat4.identity = c1Pmat := by with_unfolding_all decide
  have hmodel : Object3D.getModelMatrix testOps ⟨c1Mesh, ⟨0,0,0⟩, ⟨0,0,0⟩, ⟨1,1,1⟩⟩
      = Mat4.identity := by with_unfolding_all decide
  have hmm2 : Mat4.identity.multiply Mat4.identity = Mat4.identity := by
    with_unfolding_all decide
  have htv : transformVerticesToCameraSpace c1Mesh Mat4.identity = c1Csv := by
    norm_num [transformVerticesToCameraSpace, c1Mesh, Mat4.transformVec4, Mat4.identity,
      c1Csv]
  have htn : transformNormalsToCameraSpace testOps c1Mesh Mat4.identity = [] := by
    with_unfolding_all decide
  have hfrus : isSphereInFrustum testOps ⟨0,0,0⟩ (51/10) Mat4.identity (1287/1000) 1 1 100
      = true := by with_unfolding_all decide
  have hpts : projectMeshVerticesFull c1Mesh c1Pmat c1Viewport = c1Pts := by
    have hv : c1Viewport = ⟨100, 100⟩ := rfl
    norm_num [projectMeshVerticesFull, c1Mesh, hv, projectPoint,
      Mat4.transformVec4, ndcToScreen, c1Pmat, c1Pts]
  have hn1 : polygonNormal testOps [0,1,2] c1Csv = some ⟨0,0,1⟩ := by
    with_unfolding_all decide
  have hn2 : polygonNormal testOps [3,4,5] c1Csv = some ⟨0,0,1⟩ := by
    with_unfolding_all decide
  have hd1 : polygonDepth [0,1,2] c1Csv = -5 := by with_unfolding_all decide
  have hd2 : polygonDepth [3,4,5] c1Csv = -50000000001/10000000000 := by
    norm_num [polygonDepth, c1Csv, List.foldl]
  have hcol1 : collectPolygonGouraudVertices testOps c1Pts
      ⟨"#ffffff", [0,1,2], none, none, none⟩ c1Csv [] (some ⟨0,0,1⟩)
      ⟨⟨1,1,1⟩, ⟨1/2,1/2,1/2⟩, 32, none⟩ [] ⟨0,0,0⟩ [] none = some c1V1 := by
    norm_num [collectPolygonGouraudVertices, collectGo, gouraudVertexOf,
      computeLightingDS_no_lights, clampColor, strTruthy, jsRound, Vec3.negate,
      List.enum, List.enumFrom, c1Pts, c1Csv, c1V1]
  have hcol2 : collectPolygonGouraudVertices testOps c1Pts
      ⟨"#ffffff", [3,4,5], none, none, none⟩ c1Csv [] (some ⟨0,0,1⟩)
      ⟨⟨1,1,1⟩, ⟨1/2,1/2,1/2⟩, 32, none⟩ [] ⟨0,0,0⟩ [] none = some c1V2 := by
    norm_num [collectPolygonGouraudVertices, collectGo, gouraudVertexOf,
      computeLightingDS_no_lights, clampColor, strTruthy, jsRound, Vec3.negate,
      List.enum, List.enumFrom, c1Pts, c1Csv, c1V2]
  have hobjs : c1Scene.objects = [⟨c1Mesh, ⟨0,0,0⟩, ⟨0,0,0⟩, ⟨1,1,1⟩⟩] := rfl
  have hcam : c1Scene.camera = c1Camera := rfl
  have hlights : c1Scene.lights = [] := rfl
  have hamb : c1Scene.ambientColor = ⟨0,0,0⟩ := rfl
  have hfov : c1Camera.fovYRad = 1287/1000 := rfl
  have hnear : c1Camera.near = 1 := rfl
  have hfar : c1Camera.far = 100 := rfl
  have hvw : c1Viewport.width = 100 := rfl
  have hvh : c1Viewport.height = 100 := rfl
  have hpolys : c1Mesh.polygons =
    [⟨"#ffffff", [0,1,2], none, none, none⟩, ⟨"#ffffff", [3,4,5], none, none, none⟩] := rfl
  have hbr : c1Mesh.boundingRadius = 51/10 := rfl
  have hmatn : c1Mesh.material = none := rfl
  have huvsn : c1Mesh.uvs = [] := rfl
  norm_num [projectSceneToFilledPolygonsCollect, hobjs, hcam, hlights, hamb,
    hfov, hnear, hfar, hpolys, hbr, hmatn, huvsn, hvw, hvh,
    hview, hproj1, hmul1, hmodel, hmm2, htv, htn, hfrus, hpts, hn1, hn2,
    hhex, hcol1, hcol2, hd1, hd2, transformLightsToCameraSpace, strTruthy,
    List.foldl, c1V1, c1V2]

/-- C1 (counterexample): on the concrete two-triangle scene — depth keys
`-5` (inserted first) and `-5 - 1e-10` — `projectSceneToFilledPolygons`
with `applyPaintersAlgorithm` returns the batches with depth keys in the
order `[-5, -5 - 1e-10]`, which is not ascending: the comparator treats the
sub-`1e-9` difference as a tie and keeps insertion order, so drawing is not
strictly back-to-front as the claim states. -/
theorem c1_counterexample :
    ((projectSceneToFilledPolygons testOps c1Scene c1ViewProj c1Viewport
        { applyPaintersAlgorithm := true }).batches.map FilledPolygonBatch.depth
      = [-5, -50000000001/10000000000]) ∧
    ¬ ((-5 : ℚ) ≤ -50000000001/10000000000) := by
  constructor
  · rw [projectSceneToFilledPolygons]
    have habs : |(1:ℚ) / 10000000000| = 1 / 10000000000 := abs_of_nonneg (by norm_num)
    norm_num [c1CollectEval, jsSort, jsInsert, cmpBatch, List.foldl, c1V1, c1V2, habs]
  · norm_num

/-- C5: for `0 < near < d < far`, projecting `(0, 0, -d)` through the
perspective matrix built from `(fovY, aspect, near, far)` yields a non-null
result that is not classified behind-camera and whose stored clip-space `w`
equals `d` exactly, so un-normalizing by the returned `w` reproduces the
original depth (here for every `fovY` and `aspect`, which only affect the
screen coordinates). -/
theorem c5_perspective_roundtrip (ops : FloatOps) (fovYRad aspect near d far : ℚ)
    (viewport : Viewport) (hn : 0 < near) (hnd : near < d) (hdf : d < far) :
    ∃ p : ProjectedPoint,
      projectPoint ⟨0, 0, -d⟩ (Mat4.perspective ops fovYRad aspect near far) viewport
        = some p ∧ p.behind = false ∧ p.w = d := by
  have hd0 : (0:ℚ) < d := lt_trans hn hnd
  have hf0 : (0:ℚ) < far := lt_trans hd0 hdf
  have hne1 : near - far ≠ 0 := by linarith
  have hne2 : d ≠ 0 := ne_of_gt hd0
  have hD : (near - far) * d < 0 :=
    mul_neg_of_neg_of_pos (by linarith) hd0
  have hA1 : (near - far) * d < 2 * far * near - (far + near) * d := by
    nlinarith [mul_pos hn (show (0:ℚ) < far - d by linarith)]
  have hA2 : 2 * far * near - (far + near) * d < -((near - far) * d) := by
    nlinarith [mul_pos hf0 (show (0:ℚ) < d - near by linarith)]
  have hzval :
      (-((far + near) * (near - far)⁻¹ * d) + 2 * far * near * (near - far)⁻¹) * d⁻¹
        = (2 * far * near - (far + near) * d) / ((near - far) * d) := by
    field_simp
    ring
  have hlow : (-1 : ℚ) < (2 * far * near - (far + near) * d) / ((near - far) * d) := by
    rw [lt_div_iff_of_neg hD]
    linarith
  have hhigh : (2 * far * near - (far + near) * d) / ((near - far) * d) < 1 := by
    rw [div_lt_iff_of_neg hD]
    linarith
  refine ⟨⟨viewport.width / 2, viewport.height / 2, d, false⟩, ?_, rfl, rfl⟩
  rw [projectPoint]
  simp only [Mat4.perspective, Mat4.transformVec4, ndcToScreen]
  norm_num
  refine ⟨hne2, by ring, by ring, le_of_lt hd0, ?_, ?_⟩
  · rw [hzval]
    linarith
  · rw [hzval]
    linarith

/-- Cauchy–Schwarz helper for the frustum side planes: a point of a sphere
of radius `r` strictly containing `(x, w) = (·, cz + near)`-coordinates of
the near-plane axis point cannot lie outside the plane `x + aq·z = 0`
(with `hq = √(1 + aq²)` pinned by hypotheses). -/
lemma frustumPlaneReject (x w r hq aq nq : ℚ) (hr : 0 ≤ r) (hq0 : 0 ≤ hq)
    (hq2 : hq * hq = 1 + aq * aq) (han : 0 < aq * nq)
    (hcont : x ^ 2 + w ^ 2 < r ^ 2) : x + aq * w - aq * nq ≤ r * hq := by
  by_contra hcon
  push_neg at hcon
  have hy0 : 0 < x + aq * w := by linarith [mul_nonneg hr hq0]
  have hf1 : 0 < x + aq * w - r * hq := by linarith
  have hf2 : 0 < x + aq * w + r * hq := by linarith [mul_nonneg hr hq0]
  have hcs : (x + aq * w) ^ 2 ≤ (1 + aq * aq) * (x ^ 2 + w ^ 2) := by
    nlinarith [sq_nonneg (w - aq * x)]
  have hpos : (0:ℚ) < 1 + aq * aq := by nlinarith [sq_nonneg aq]
  have hlt : (1 + aq * aq) * (x ^ 2 + w ^ 2) < (1 + aq * aq) * r ^ 2 :=
    mul_lt_mul_of_pos_left hcont hpos
  have hsq : (r * hq) ^ 2 = (1 + aq * aq) * r ^ 2 := by rw [← hq2]; ring
  nlinarith [mul_pos hf1 hf2]

set_option maxHeartbeats 1600000 in
/-- C4: the sphere-visibility test (with the transformed center's
coordinates, `tan(fovY/2)` and the two `hypot` values pinned by hypotheses)
returns `false` whenever the camera-space `z` plus the radius is below
`-far` or `z` minus the radius is above `-near`; returns `true` whenever the
sphere strictly contains the camera-space point `(0, 0, -near)`; and returns
`false` only when the sphere lies entirely outside one of the six frustum
planes. -/
theorem c4_sphere_frustum (ops : FloatOps) (worldCenter : Vec3) (worldRadius : ℚ)
    (viewMatrix : Mat4) (fovYRad aspect near far : ℚ)
    (cx cy cz cw t hA hB : ℚ)
    (hv : viewMatrix.transformVec4 ⟨worldCenter.x, worldCenter.y, worldCenter.z, 1⟩
      = ⟨cx, cy, cz, cw⟩)
    (ht : ops.tan (fovYRad / 2) = t)
    (hsA : ops.sqrt (1 + aspect * t * (aspect * t)) = hA)
    (hsB : ops.sqrt (1 + t * t) = hB)
    (ht0 : 0 < t) (hasp : 0 < aspect) (hnear : 0 < near) (hnf : near < far)
    (hr : 0 ≤ worldRadius)
    (hA0 : 0 ≤ hA) (hA2 : hA * hA = 1 + aspect * t * (aspect * t))
    (hB0 : 0 ≤ hB) (hB2 : hB * hB = 1 + t * t) :
    (cz + worldRadius < -far →
      isSphereInFrustum ops worldCenter worldRadius viewMatrix fovYRad aspect near far
        = false) ∧
    (-near < cz - worldRadius →
      isSphereInFrustum ops worldCenter worldRadius viewMatrix fovYRad aspect near far
        = false) ∧
    (cx ^ 2 + cy ^ 2 + (cz + near) ^ 2 < worldRadius ^ 2 →
      isSphereInFrustum ops worldCenter worldRadius viewMatrix fovYRad aspect near far
        = true) ∧
    (isSphereInFrustum ops worldCenter worldRadius viewMatrix fovYRad aspect near far
        = false →
      -near < cz - worldRadius ∨ cz + worldRadius < -far ∨
      worldRadius * hA < cx + aspect * t * cz ∨
      worldRadius * hA < -cx + aspect * t * cz ∨
      worldRadius * hB < cy + t * cz ∨
      worldRadius * hB < -cy + t * cz) := by
  have key : isSphereInFrustum ops worldCenter worldRadius viewMatrix fovYRad aspect near far
      = (if -near < cz - worldRadius then false
         else if cz + worldRadius < -far then false
         else if worldRadius * hA < cx + aspect * t * cz then false
         else if worldRadius * hA < -cx + aspect * t * cz then false
         else if worldRadius * hB < cy + t * cz then false
         else if worldRadius * hB < -cy + t * cz then false
         else true) := by
    simp only [isSphereInFrustum, hv, ht, hsA, hsB]
  have ha0 : 0 < aspect * t := mul_pos hasp ht0
  have han : 0 < aspect * t * near := mul_pos ha0 hnear
  have htn : 0 < t * near := mul_pos ht0 hnear
  refine ⟨?_, ?_, ?_, ?_⟩
  · intro h
    rw [key]
    split_ifs <;> rfl
  · intro h
    rw [key]
    split_ifs
    rfl
  · intro h
    rw [key]
    split_ifs with h1 h2 h3 h4 h5 h6 <;> try rfl
    · exfalso
      nlinarith [sq_nonneg cx, sq_nonneg cy]
    · exfalso
      nlinarith [sq_nonneg cx, sq_nonneg cy]
    · exfalso
      have hc : cx ^ 2 + (cz + near) ^ 2 < worldRadius ^ 2 := by nlinarith [sq_nonneg cy]
      have hle := frustumPlaneReject cx (cz + near) worldRadius hA (aspect * t) near
        hr hA0 hA2 han hc
      ring_nf at hle h3
      linarith
    · exfalso
      have hc : (-cx) ^ 2 + (cz + near) ^ 2 < worldRadius ^ 2 := by nlinarith [sq_nonneg cy]
      have hle := frustumPlaneReject (-cx) (cz + near) worldRadius hA (aspect * t) near
        hr hA0 hA2 han hc
      ring_nf at hle h4
      linarith
    · exfalso
      have hc : cy ^ 2 + (cz + near) ^ 2 < worldRadius ^ 2 := by nlinarith [sq_nonneg cx]
      have hle := frustumPlaneReject cy (cz + near) worldRadius hB t near
        hr hB0 hB2 htn hc
      ring_nf at hle h5
      linarith
    · exfalso
      have hc : (-cy) ^ 2 + (cz + near) ^ 2 < worldRadius ^ 2 := by nlinarith [sq_nonneg cx]
      have hle := frustumPlaneReject (-cy) (cz + near) worldRadius hB t near
        hr hB0 hB2 htn hc
      ring_nf at hle h6
      linarith
  · intro h
    rw [key] at h
    split_ifs at h with h1 h2 h3 h4 h5 h6
    · exact Or.inl h1
    · exact Or.inr (Or.inl h2)
    · exact Or.inr (Or.inr (Or.inl h3))
    · exact Or.inr (Or.inr (Or.inr (Or.inl h4)))
    · exact Or.inr (Or.inr (Or.inr (Or.inr (Or.inl h5))))
    · exact Or.inr (Or.inr (Or.inr (Or.inr (Or.inr h6))))

/-- Witness for C5 at `near = 1`, `d = 2`, `far = 3`. -/
theorem c5_perspective_roundtrip_witness :
    ∃ p : ProjectedPoint,
      projectPoint ⟨0, 0, -2⟩ (Mat4.perspective testOps (1287/1000) 1 1 3) ⟨100, 100⟩
        = some p ∧ p.behind = false ∧ p.w = 2 :=
  c5_perspective_roundtrip testOps (1287/1000) 1 1 2 3 ⟨100, 100⟩
    (by norm_num) (by norm_num) (by norm_num)

/-- Witness for C4: the sphere of radius 2 around camera-space `(0, 0, -2)`
strictly contains `(0, 0, -1)` and is reported visible. -/
theorem c4_sphere_frustum_witness :
    isSphereInFrustum testOps ⟨0, 0, -2⟩ 2 Mat4.identity (1287/1000) 1 1 100 = true :=
  (c4_sphere_frustum testOps ⟨0, 0, -2⟩ 2 Mat4.identity (1287/1000) 1 1 100
    0 0 (-2) 1 (3/4) (5/4) (5/4)
    (by with_unfolding_all decide)
    rfl
    (by with_unfolding_all decide)
    (by with_unfolding_all decide)
    (by norm_num) (by norm_num) (by norm_num) (by norm_num) (by norm_num)
    (by norm_num) (by norm_num) (by norm_num) (by norm_num)).2.2.1 (by norm_num)

/-- The early-exit collector returns `none` whenever one of its inputs maps to
`none`. -/
lemma collectGo_eq_none {α β : Type} (f : α → Option β) (l : List α) (x : α)
    (hx : x ∈ l) (hfx : f x = none) : collectGo f l = none := by
  induction l with
  | nil => cases hx
  | cons y ys ih =>
    rcases List.mem_cons.mp hx with h | h
    · subst h
      simp [collectGo, hfx]
    · cases hfy : f y with
      | none => simp [collectGo, hfy]
      | some v => simp [collectGo, hfy, ih h]

/-- A mesh vertex whose clip-space `w` is zero or which is classified
behind-camera projects to `null` in `projectMeshVerticesFull`. -/
lemma projectMeshVertex_none (mesh : MeshLike) (mvp : Mat4) (viewport : Viewport)
    (i : ℕ) (vtx : Vec3) (hv : mesh.vertices.get? i = some vtx)
    (hbad : (mvp.transformVec4 ⟨vtx.x, vtx.y, vtx.z, 1⟩).w = 0 ∨
      ((mvp.transformVec4 ⟨vtx.x, vtx.y, vtx.z, 1⟩).w < 0 ∨
       (mvp.transformVec4 ⟨vtx.x, vtx.y, vtx.z, 1⟩).z *
         (1 / (mvp.transformVec4 ⟨vtx.x, vtx.y, vtx.z, 1⟩).w) < -1 ∨
       1 < (mvp.transformVec4 ⟨vtx.x, vtx.y, vtx.z, 1⟩).z *
         (1 / (mvp.transformVec4 ⟨vtx.x, vtx.y, vtx.z, 1⟩).w))) :
    (projectMeshVerticesFull mesh mvp viewport).getD i none = none := by
  have hv' : mesh.vertices[i]? = some vtx := by
    rw [← List.get?_eq_getElem?]; exact hv
  simp only [projectMeshVerticesFull, List.getD_eq_getElem?_getD, List.getElem?_map, hv',
    Option.map_some', Option.getD_some]
  simp only [projectPoint]
  by_cases hw0 : (mvp.transformVec4 ⟨vtx.x, vtx.y, vtx.z, 1⟩).w = 0
  · rw [if_pos hw0]
  · rw [if_neg hw0]
    rcases hbad with h0 | hB
    · exact absurd h0 hw0
    · rw [if_pos hB]
      rfl

/-- C2: if any vertex of a polygon has clip-space `w = 0` or is classified
behind-camera (negative `w` or normalized depth outside `[-1, 1]`), the
per-polygon vertex collector returns `none` — the whole polygon is dropped,
no partial output is produced, and no error is raised (the result is an
ordinary `Option`). -/
theorem c2_behind_vertex_drops_polygon (ops : FloatOps) (mesh : MeshLike) (mvp : Mat4)
    (viewport : Viewport) (polygon : Polygon)
    (cameraSpaceVertices cameraSpaceNormals : List Vec3) (faceNormal : Option Vec3)
    (material : Material) (lights : List Light) (ambientColor : ColorRGB)
    (uvs : List UV) (uvIndices : Option (List ℕ)) (k i : ℕ) (vtx : Vec3)
    (hk : polygon.vertexIndices.get? k = some i)
    (hv : mesh.vertices.get? i = some vtx)
    (hbad : (mvp.transformVec4 ⟨vtx.x, vtx.y, vtx.z, 1⟩).w = 0 ∨
      ((mvp.transformVec4 ⟨vtx.x, vtx.y, vtx.z, 1⟩).w < 0 ∨
       (mvp.transformVec4 ⟨vtx.x, vtx.y, vtx.z, 1⟩).z *
         (1 / (mvp.transformVec4 ⟨vtx.x, vtx.y, vtx.z, 1⟩).w) < -1 ∨
       1 < (mvp.transformVec4 ⟨vtx.x, vtx.y, vtx.z, 1⟩).z *
         (1 / (mvp.transformVec4 ⟨vtx.x, vtx.y, vtx.z, 1⟩).w))) :
    collectPolygonGouraudVertices ops (projectMeshVerticesFull mesh mvp viewport) polygon
      cameraSpaceVertices cameraSpaceNormals faceNormal material lights ambientColor
      uvs uvIndices = none := by
  simp only [collectPolygonGouraudVertices]
  split
  · rfl
  · refine collectGo_eq_none _ _ (k, i) ?_ ?_
    · exact List.mk_mem_enum_iff_getElem?.mpr (by rw [← List.get?_eq_getElem?]; exact hk)
    · simp only
      rw [projectMeshVertex_none mesh mvp viewport i vtx hv hbad]

/-- Witness for C2: a triangle whose vertex `(0, 0, 5)` sits behind the
identity camera (normalized depth `5 > 1`) is dropped entirely. -/
theorem c2_behind_vertex_drops_polygon_witness :
    collectPolygonGouraudVertices testOps
      (projectMeshVerticesFull ⟨[⟨0, 0, 5⟩], [⟨"#ffffff", [0, 0, 0], none, none, none⟩],
        [], [], none, 1⟩ Mat4.identity ⟨100, 100⟩)
      ⟨"#ffffff", [0, 0, 0], none, none, none⟩ [] [] none
      ⟨⟨1, 1, 1⟩, ⟨1, 1, 1⟩, 32, none⟩ [] ⟨0, 0, 0⟩ [] none = none :=
  c2_behind_vertex_drops_polygon testOps
    ⟨[⟨0, 0, 5⟩], [⟨"#ffffff", [0, 0, 0], none, none, none⟩], [], [], none, 1⟩
    Mat4.identity ⟨100, 100⟩ ⟨"#ffffff", [0, 0, 0], none, none, none⟩ [] [] none
    ⟨⟨1, 1, 1⟩, ⟨1, 1, 1⟩, 32, none⟩ [] ⟨0, 0, 0⟩ [] none 0 0 ⟨0, 0, 5⟩
    rfl rfl (by with_unfolding_all decide)

/-- Membership in the inclusive scan range gives its bounds. -/
lemma mem_intRange {lo hi x : ℤ} (hx : x ∈ intRange lo hi) : lo ≤ x ∧ x ≤ hi := by
  simp [intRange] at hx
  obtain ⟨n, hn, rfl⟩ := hx
  omega

/-- C10: every pixel write issued by each of the three rasterizer variants
(flat, Gouraud, Gouraud-textured) has `px` in `[0, width - 1]` and `py` in
`[0, height - 1]`, for every input triangle: the scan bounding box is clamped
to the framebuffer bounds before iteration. -/
theorem c10_rasterizer_writes_in_bounds (width height : ℕ)
    (a b c : Vec2) (color : String) (ga gb gc : GouraudVertex) (tex : ImageData)
    (e : PixelWrite)
    (he : e ∈ rasterizeTriangleWrites width height a b c color ∨
          e ∈ rasterizeTriangleGouraudWrites width height ga gb gc ∨
          e ∈ rasterizeTriangleGouraudTexturedWrites width height ga gb gc tex) :
    0 ≤ e.px ∧ e.px ≤ (width : ℤ) - 1 ∧ 0 ≤ e.py ∧ e.py ≤ (height : ℤ) - 1 := by
  rcases he with he | he | he
  · simp only [rasterizeTriangleWrites] at he
    split at he
    · simp at he
    · obtain ⟨py, hpy, he2⟩ := List.mem_flatMap.mp he
      obtain ⟨px, hpx, hf⟩ := List.mem_filterMap.mp he2
      simp only [bboxXRange] at hpx
      simp only [bboxYRange] at hpy
      obtain ⟨hx1, hx2⟩ := mem_intRange hpx
      obtain ⟨hy1, hy2⟩ := mem_intRange hpy
      have hpq : e.px = px ∧ e.py = py := by
        repeat' split at hf
        all_goals
          first
            | (injection hf with h
               subst h
               exact ⟨rfl, rfl⟩)
            | (exact absurd hf (by simp))
      obtain ⟨hex, hey⟩ := hpq
      rw [hex, hey]
      omega
  · simp only [rasterizeTriangleGouraudWrites] at he
    split at he
    · simp at he
    · obtain ⟨py, hpy, he2⟩ := List.mem_flatMap.mp he
      obtain ⟨px, hpx, hf⟩ := List.mem_filterMap.mp he2
      simp only [bboxXRange] at hpx
      simp only [bboxYRange] at hpy
      obtain ⟨hx1, hx2⟩ := mem_intRange hpx
      obtain ⟨hy1, hy2⟩ := mem_intRange hpy
      have hpq : e.px = px ∧ e.py = py := by
        repeat' split at hf
        all_goals
          first
            | (injection hf with h
               subst h
               exact ⟨rfl, rfl⟩)
            | (exact absurd hf (by simp))
      obtain ⟨hex, hey⟩ := hpq
      rw [hex, hey]
      omega
  · simp only [rasterizeTriangleGouraudTexturedWrites] at he
    split at he
    · simp at he
    · obtain ⟨py, hpy, he2⟩ := List.mem_flatMap.mp he
      obtain ⟨px, hpx, hf⟩ := List.mem_filterMap.mp he2
      simp only [bboxXRange] at hpx
      simp only [bboxYRange] at hpy
      obtain ⟨hx1, hx2⟩ := mem_intRange hpx
      obtain ⟨hy1, hy2⟩ := mem_intRange hpy
      have hpq : e.px = px ∧ e.py = py := by
        repeat' split at hf
        all_goals
          first
            | (injection hf with h
               subst h
               exact ⟨rfl, rfl⟩)
            | (exact absurd hf (by simp))
      obtain ⟨hex, hey⟩ := hpq
      rw [hex, hey]
      omega

/-- Witness for C10: the flat rasterizer on a 2×2 framebuffer emits the
in-bounds write at `(0, 0)` for a right triangle covering the origin. -/
theorem c10_rasterizer_writes_in_bounds_witness :
    ((⟨0, 0, 255, 255, 255⟩ : PixelWrite) ∈
        rasterizeTriangleWrites 2 2 ⟨0, 0⟩ ⟨2, 0⟩ ⟨0, 2⟩ "#ffffff") ∧
      (0 ≤ (⟨0, 0, 255, 255, 255⟩ : PixelWrite).px ∧
        (⟨0, 0, 255, 255, 255⟩ : PixelWrite).px ≤ (2 : ℤ) - 1 ∧
        0 ≤ (⟨0, 0, 255, 255, 255⟩ : PixelWrite).py ∧
        (⟨0, 0, 255, 255, 255⟩ : PixelWrite).py ≤ (2 : ℤ) - 1) :=
  ⟨by with_unfolding_all decide,
   c10_rasterizer_writes_in_bounds 2 2 ⟨0, 0⟩ ⟨2, 0⟩ ⟨0, 2⟩ "#ffffff"
     ⟨0, 0, 0, 0, 0, none, none, none, none, none, none⟩
     ⟨0, 0, 0, 0, 0, none, none, none, none, none, none⟩
     ⟨0, 0, 0, 0, 0, none, none, none, none, none, none⟩
     ⟨1, 1, [0, 0, 0, 255]⟩ ⟨0, 0, 255, 255, 255⟩
     (Or.inl (by with_unfolding_all decide))⟩

set_option maxHeartbeats 800000 in
/-- C6 (amended): the spot cone factor is `1` when the cosine of the angle
between the aim direction and the light-to-surface direction is at least
`cos(inner)`, `0` when it is below `cos(outer)`, and in between it ramps
linearly *in the cosine* — `(cos θ - cos outer) / (cos inner - cos outer)` —
not linearly in the angle itself; the factor is multiplied into the intensity
before distance attenuation divides it. -/
theorem c6_spot_cone_amended (ops : FloatOps) (light : SpotLight) (vertexPos : Vec3)
    (dist cosAngle cosInner cosOuter : ℚ)
    (hdist : (light.position.sub vertexPos).length ops = dist)
    (hdE : ¬ dist < EPS)
    (houter : ops.cos (light.outerCone.getD (jsPI / 4)) = cosOuter)
    (hinner : ops.cos (light.innerCone.getD (light.outerCone.getD (jsPI / 4) * (8/10)))
      = cosInner)
    (hcos : max 0 ((((light.position.sub vertexPos).scale (1 / dist)).negate).dot
        (safeNormalize ops light.direction light.direction)) = cosAngle) :
    getSpotLAndAtt ops light vertexPos =
      some ((light.position.sub vertexPos).scale (1 / dist),
        match light.attenuation with
        | none =>
          (if cosAngle < cosOuter then 0
           else if cosAngle < cosInner then (cosAngle - cosOuter) / (cosInner - cosOuter)
           else 1) * light.intensity
        | some a =>
          (if cosAngle < cosOuter then 0
           else if cosAngle < cosInner then (cosAngle - cosOuter) / (cosInner - cosOuter)
           else 1) * light.intensity /
            (a.constant + a.linear * dist + a.quadratic * dist * dist)) := by
  simp only [getSpotLAndAtt, hdist, if_neg hdE, hcos, houter, hinner]

/-- Witness for C6 (amended) at the `spotOps` fixture: the cone factor of
the measured cosine `3/5` between `cos(outer) = 0` and `cos(inner) = 4/5`
is `(3/5 - 0)/(4/5 - 0)`. -/
theorem c6_spot_cone_amended_witness :
    getSpotLAndAtt spotOps
      ⟨⟨0, 0, 0⟩, ⟨1, 0, 0⟩, ⟨1, 1, 1⟩, 1, some (1/2), some 1, none⟩ ⟨3, 4, 0⟩
      = some (⟨-3/5, -4/5, 0⟩,
        (if (3/5 : ℚ) < 0 then 0
         else if (3/5 : ℚ) < 4/5 then (3/5 - 0) / (4/5 - 0)
         else 1) * 1) := by
  have h := c6_spot_cone_amended spotOps
    ⟨⟨0, 0, 0⟩, ⟨1, 0, 0⟩, ⟨1, 1, 1⟩, 1, some (1/2), some 1, none⟩ ⟨3, 4, 0⟩
    5 (3/5) (4/5) 0
    (by with_unfolding_all decide)
    (by with_unfolding_all decide)
    (by with_unfolding_all decide)
    (by with_unfolding_all decide)
    (by with_unfolding_all decide)
  exact h.trans (by with_unfolding_all decide)

/-- C6 counterexample: with cone angles inner `1/2`, outer `1` and a surface
direction at angle `3/4` from the aim axis (cosines pinned by the exact
`spotOps` table: `cos(1/2) = 4/5`, `cos(3/4) = 3/5`, `cos 1 = 0`), the code
computes the cone factor `(3/5 - 0)/(4/5 - 0) = 3/4`, while the claimed
angle-linear ramp `(outer - θ)/(outer - inner) = (1 - 3/4)/(1 - 1/2)` gives
`1/2 ≠ 3/4`. -/
theorem c6_spot_cone_counterexample :
    getSpotLAndAtt spotOps
      ⟨⟨0, 0, 0⟩, ⟨1, 0, 0⟩, ⟨1, 1, 1⟩, 1, some (1/2), some 1, none⟩ ⟨3, 4, 0⟩
      = some (⟨-3/5, -4/5, 0⟩, 3/4) ∧
    spotOps.cos (3/4) = 3/5 ∧
    (1 - 3/4) / (1 - 1/2) = (1/2 : ℚ) ∧
    (3/4 : ℚ) ≠ 1/2 := by
  refine ⟨?_, by with_unfolding_all decide, by norm_num, by norm_num⟩
  with_unfolding_all decide

/-- When the early-exit collector succeeds, its `k`-th output is the image of
the `k`-th input. -/
lemma collectGo_get (f : α → Option β) (l : List α) (vs : List β)
    (h : collectGo f l = some vs) (k : ℕ) (x : α) (hx : l.get? k = some x) :
    vs.get? k = f x := by
  induction l generalizing vs k with
  | nil => simp at hx
  | cons y ys ih =>
    rw [collectGo] at h
    cases hfy : f y with
    | none =>
      rw [hfy] at h
      simp at h
    | some v =>
      rw [hfy] at h
      cases hgo : collectGo f ys with
      | none =>
        rw [hgo] at h
        simp at h
      | some ws =>
        rw [hgo] at h
        injection h with h'
        subst h'
        cases k with
        | zero =>
          simp only [List.get?_cons_zero] at hx
          injection hx with hx'
          subst hx'
          simp [hfy]
        | succ k' =>
          simp only [List.get?_cons_succ] at hx ⊢
          exact ih ws hgo k' hx

/-- Field values of the per-vertex loop body in face-normal, non-textured
mode: the lighting runs at the vertex position with the face normal and the
negated vertex position as view direction. -/
lemma gouraudVertexOf_face_fields (ops : FloatOps) (ufn hasUVs usep : Bool) (n : Vec3)
    (csv csn : List Vec3) (material : Material) (lights : List Light)
    (amb : ColorRGB) (uvs : List UV) (uvIndices : Option (List ℕ)) (k i : ℕ)
    (p : ProjectedPoint) (hufn : ufn = true) (husep : usep = false) :
    (gouraudVertexOf ops ufn hasUVs usep (some n) csv csn material lights amb uvs
        uvIndices k i p).x = p.x ∧
    (gouraudVertexOf ops ufn hasUVs usep (some n) csv csn material lights amb uvs
        uvIndices k i p).y = p.y ∧
    (gouraudVertexOf ops ufn hasUVs usep (some n) csv csn material lights amb uvs
        uvIndices k i p).r = (jsRound (max 0 (min 255
      (((computeLightingDiffuseAndSpecular ops (csv.getD i ⟨0, 0, 0⟩) n
           (csv.getD i ⟨0, 0, 0⟩).negate material lights amb).1.r +
        (computeLightingDiffuseAndSpecular ops (csv.getD i ⟨0, 0, 0⟩) n
           (csv.getD i ⟨0, 0, 0⟩).negate material lights amb).2.r) * 255))) : ℚ) ∧
    (gouraudVertexOf ops ufn hasUVs usep (some n) csv csn material lights amb uvs
        uvIndices k i p).g = (jsRound (max 0 (min 255
      (((computeLightingDiffuseAndSpecular ops (csv.getD i ⟨0, 0, 0⟩) n
           (csv.getD i ⟨0, 0, 0⟩).negate material lights amb).1.g +
        (computeLightingDiffuseAndSpecular ops (csv.getD i ⟨0, 0, 0⟩) n
           (csv.getD i ⟨0, 0, 0⟩).negate material lights amb).2.g) * 255))) : ℚ) ∧
    (gouraudVertexOf ops ufn hasUVs usep (some n) csv csn material lights amb uvs
        uvIndices k i p).b = (jsRound (max 0 (min 255
      (((computeLightingDiffuseAndSpecular ops (csv.getD i ⟨0, 0, 0⟩) n
           (csv.getD i ⟨0, 0, 0⟩).negate material lights amb).1.b +
        (computeLightingDiffuseAndSpecular ops (csv.getD i ⟨0, 0, 0⟩) n
           (csv.getD i ⟨0, 0, 0⟩).negate material lights amb).2.b) * 255))) : ℚ) := by
  subst hufn
  subst husep
  refine ⟨?_, ?_, ?_, ?_, ?_⟩ <;>
    · simp only [gouraudVertexOf]
      split <;> rfl

/-- C7 (amended): in face-normal mode (no camera-space vertex normals, face
normal present) every emitted vertex of the polygon is lit with the shared
face normal, but at its *own* camera-space position and with its *own* view
direction — the negated vertex position — not the polygon centroid: vertex
`k` (mesh index `i`) carries the screen position of its projected point and
the rounded, clamped colors of the lighting evaluated at
`cameraSpaceVertices[i]` with view direction `-cameraSpaceVertices[i]`. -/
theorem c7_face_normal_amended (ops : FloatOps)
    (projectedPoints : List (Option ProjectedPoint)) (polygon : Polygon)
    (cameraSpaceVertices : List Vec3) (n : Vec3)
    (material : Material) (lights : List Light) (ambientColor : ColorRGB)
    (uvs : List UV) (uvIndices : Option (List ℕ))
    (vs : List GouraudVertex) (k i : ℕ) (p : ProjectedPoint)
    (htex : polygon.textureUrl = none)
    (hres : collectPolygonGouraudVertices ops projectedPoints polygon
      cameraSpaceVertices [] (some n) material lights ambientColor uvs uvIndices
      = some vs)
    (hk : polygon.vertexIndices.get? k = some i)
    (hp : projectedPoints.getD i none = some p) :
    ∃ gv, vs.get? k = some gv ∧
      gv.x = p.x ∧ gv.y = p.y ∧
      gv.r = (jsRound (max 0 (min 255
        (((computeLightingDiffuseAndSpecular ops (cameraSpaceVertices.getD i ⟨0, 0, 0⟩) n
             (cameraSpaceVertices.getD i ⟨0, 0, 0⟩).negate material lights ambientColor).1.r +
          (computeLightingDiffuseAndSpecular ops (cameraSpaceVertices.getD i ⟨0, 0, 0⟩) n
             (cameraSpaceVertices.getD i ⟨0, 0, 0⟩).negate material lights
             ambientColor).2.r) * 255))) : ℚ) ∧
      gv.g = (jsRound (max 0 (min 255
        (((computeLightingDiffuseAndSpecular ops (cameraSpaceVertices.getD i ⟨0, 0, 0⟩) n
             (cameraSpaceVertices.getD i ⟨0, 0, 0⟩).negate material lights ambientColor).1.g +
          (computeLightingDiffuseAndSpecular ops (cameraSpaceVertices.getD i ⟨0, 0, 0⟩) n
             (cameraSpaceVertices.getD i ⟨0, 0, 0⟩).negate material lights
             ambientColor).2.g) * 255))) : ℚ) ∧
      gv.b = (jsRound (max 0 (min 255
        (((computeLightingDiffuseAndSpecular ops (cameraSpaceVertices.getD i ⟨0, 0, 0⟩) n
             (cameraSpaceVertices.getD i ⟨0, 0, 0⟩).negate material lights ambientColor).1.b +
          (computeLightingDiffuseAndSpecular ops (cameraSpaceVertices.getD i ⟨0, 0, 0⟩) n
             (cameraSpaceVertices.getD i ⟨0, 0, 0⟩).negate material lights
             ambientColor).2.b) * 255))) : ℚ) := by
  simp only [collectPolygonGouraudVertices] at hres
  split at hres
  · simp at hres
  · have henum : polygon.vertexIndices.enum.get? k = some (k, i) := by
      rw [List.get?_eq_getElem?, List.getElem?_enum, ← List.get?_eq_getElem?, hk]
      rfl
    have hvk := collectGo_get _ _ _ hres k (k, i) henum
    simp only [hp] at hvk
    exact ⟨_, hvk, gouraudVertexOf_face_fields ops _ _ _ n cameraSpaceVertices []
      material lights ambientColor uvs uvIndices k i p rfl (by rw [htex]; rfl)⟩

set_option maxRecDepth 1900 in
/-- Concrete face-normal-mode run of the per-polygon collector: camera-space
triangle `(0,0,-5), (0,12,-5), (-12,0,-5)`, face normal `(0,0,1)`, one point
light at the origin with intensity `1/2`, shininess `0`, no textures.  The
three vertices come out with distinct colors because each is lit at its own
position with its own negated-position view direction. -/
lemma faceModeCollectEval :
    collectPolygonGouraudVertices testOps
      [some ⟨0, 0, 1, false⟩, some ⟨0, 0, 1, false⟩, some ⟨0, 0, 1, false⟩]
      ⟨"#ffffff", [0, 1, 2], none, none, none⟩
      [⟨0, 0, -5⟩, ⟨0, 12, -5⟩, ⟨-12, 0, -5⟩] [] (some ⟨0, 0, 1⟩)
      ⟨⟨1, 1, 1⟩, ⟨1, 1, 1⟩, 0, none⟩
      [Light.point ⟨⟨0, 0, 0⟩, ⟨1, 1, 1⟩, 1/2, none⟩] ⟨0, 0, 0⟩ [] none
      = some [⟨0, 0, 128, 128, 128, some 1, none, none, none, none, none⟩,
              ⟨0, 0, 49, 49, 49, some 1, none, none, none, none, none⟩,
              ⟨0, 0, 49, 49, 49, some 1, none, none, none, none, none⟩] := by
  have hg0 : gouraudVertexOf testOps true false false (some ⟨0, 0, 1⟩)
      [⟨0, 0, -5⟩, ⟨0, 12, -5⟩, ⟨-12, 0, -5⟩] []
      ⟨⟨1, 1, 1⟩, ⟨1, 1, 1⟩, 0, none⟩
      [Light.point ⟨⟨0, 0, 0⟩, ⟨1, 1, 1⟩, 1/2, none⟩] ⟨0, 0, 0⟩ [] none 0 0
      ⟨0, 0, 1, false⟩
      = ⟨0, 0, 128, 128, 128, some 1, none, none, none, none, none⟩ := by
    with_unfolding_all decide
  have hg1 : gouraudVertexOf testOps true false false (some ⟨0, 0, 1⟩)
      [⟨0, 0, -5⟩, ⟨0, 12, -5⟩, ⟨-12, 0, -5⟩] []
      ⟨⟨1, 1, 1⟩, ⟨1, 1, 1⟩, 0, none⟩
      [Light.point ⟨⟨0, 0, 0⟩, ⟨1, 1, 1⟩, 1/2, none⟩] ⟨0, 0, 0⟩ [] none 1 1
      ⟨0, 0, 1, false⟩
      = ⟨0, 0, 49, 49, 49, some 1, none, none, none, none, none⟩ := by
    with_unfolding_all decide
  have hg2 : gouraudVertexOf testOps true false false (some ⟨0, 0, 1⟩)
      [⟨0, 0, -5⟩, ⟨0, 12, -5⟩, ⟨-12, 0, -5⟩] []
      ⟨⟨1, 1, 1⟩, ⟨1, 1, 1⟩, 0, none⟩
      [Light.point ⟨⟨0, 0, 0⟩, ⟨1, 1, 1⟩, 1/2, none⟩] ⟨0, 0, 0⟩ [] none 2 2
      ⟨0, 0, 1, false⟩
      = ⟨0, 0, 49, 49, 49, some 1, none, none, none, none, none⟩ := by
    with_unfolding_all decide
  simp only [collectPolygonGouraudVertices]
  norm_num [List.enum, List.enumFrom, collectGo, strTruthy, hg0, hg1, hg2]

/-- C7 counterexample: a face-normal-mode polygon whose three camera-space
vertices `(0,0,-5), (0,12,-5), (-12,0,-5)` share the face normal `(0,0,1)`
but receive different colors (`128, 49, 49`) from a single point light at
the origin — so the per-vertex lighting inputs are not uniform across the
polygon, contradicting centroid-based flat shading. -/
theorem c7_face_normal_counterexample :
    polygonNormal testOps [0, 1, 2] [⟨0, 0, -5⟩, ⟨0, 12, -5⟩, ⟨-12, 0, -5⟩]
      = some ⟨0, 0, 1⟩ ∧
    (collectPolygonGouraudVertices testOps
        [some ⟨0, 0, 1, false⟩, some ⟨0, 0, 1, false⟩, some ⟨0, 0, 1, false⟩]
        ⟨"#ffffff", [0, 1, 2], none, none, none⟩
        [⟨0, 0, -5⟩, ⟨0, 12, -5⟩, ⟨-12, 0, -5⟩] [] (some ⟨0, 0, 1⟩)
        ⟨⟨1, 1, 1⟩, ⟨1, 1, 1⟩, 0, none⟩
        [Light.point ⟨⟨0, 0, 0⟩, ⟨1, 1, 1⟩, 1/2, none⟩] ⟨0, 0, 0⟩ [] none).map
      (fun vs => vs.map GouraudVertex.r) = some [128, 49, 49] ∧
    (128 : ℚ) ≠ 49 := by
  refine ⟨?_, ?_, by norm_num⟩
  · norm_num [polygonNormal, testOps, sqrtTable, Vec3.sub, Vec3.cross, Vec3.length,
      Vec3.lengthSq, Vec3.dot, Vec3.normalize, Vec3.scale]
  · rw [faceModeCollectEval]
    rfl

/-- Witness for C7 (amended) at the concrete face-normal-mode run: the
second output vertex carries the colors of the lighting evaluated at its own
position `(0, 12, -5)` with view direction `-(0, 12, -5)`. -/
theorem c7_face_normal_amended_witness :
    ∃ gv, ([⟨0, 0, 128, 128, 128, some 1, none, none, none, none, none⟩,
            ⟨0, 0, 49, 49, 49, some 1, none, none, none, none, none⟩,
            ⟨0, 0, 49, 49, 49, some 1, none, none, none, none, none⟩] :
        List GouraudVertex).get? 1 = some gv ∧
      gv.x = (⟨0, 0, 1, false⟩ : ProjectedPoint).x ∧
      gv.y = (⟨0, 0, 1, false⟩ : ProjectedPoint).y ∧
      gv.r = (jsRound (max 0 (min 255
        (((computeLightingDiffuseAndSpecular testOps
             (([⟨0, 0, -5⟩, ⟨0, 12, -5⟩, ⟨-12, 0, -5⟩] : List Vec3).getD 1 ⟨0, 0, 0⟩) ⟨0, 0, 1⟩
             (([⟨0, 0, -5⟩, ⟨0, 12, -5⟩, ⟨-12, 0, -5⟩] : List Vec3).getD 1 ⟨0, 0, 0⟩).negate
             ⟨⟨1, 1, 1⟩, ⟨1, 1, 1⟩, 0, none⟩
             [Light.point ⟨⟨0, 0, 0⟩, ⟨1, 1, 1⟩, 1/2, none⟩] ⟨0, 0, 0⟩).1.r +
          (computeLightingDiffuseAndSpecular testOps
             (([⟨0, 0, -5⟩, ⟨0, 12, -5⟩, ⟨-12, 0, -5⟩] : List Vec3).getD 1 ⟨0, 0, 0⟩) ⟨0, 0, 1⟩
             (([⟨0, 0, -5⟩, ⟨0, 12, -5⟩, ⟨-12, 0, -5⟩] : List Vec3).getD 1 ⟨0, 0, 0⟩).negate
             ⟨⟨1, 1, 1⟩, ⟨1, 1, 1⟩, 0, none⟩
             [Light.point ⟨⟨0, 0, 0⟩, ⟨1, 1, 1⟩, 1/2, none⟩] ⟨0, 0, 0⟩).2.r) * 255))) : ℚ) ∧
      gv.g = (jsRound (max 0 (min 255
        (((computeLightingDiffuseAndSpecular testOps
             (([⟨0, 0, -5⟩, ⟨0, 12, -5⟩, ⟨-12, 0, -5⟩] : List Vec3).getD 1 ⟨0, 0, 0⟩) ⟨0, 0, 1⟩
             (([⟨0, 0, -5⟩, ⟨0, 12, -5⟩, ⟨-12, 0, -5⟩] : List Vec3).getD 1 ⟨0, 0, 0⟩).negate
             ⟨⟨1, 1, 1⟩, ⟨1, 1, 1⟩, 0, none⟩
             [Light.point ⟨⟨0, 0, 0⟩, ⟨1, 1, 1⟩, 1/2, none⟩] ⟨0, 0, 0⟩).1.g +
          (computeLightingDiffuseAndSpecular testOps
             (([⟨0, 0, -5⟩, ⟨0, 12, -5⟩, ⟨-12, 0, -5⟩] : List Vec3).getD 1 ⟨0, 0, 0⟩) ⟨0, 0, 1⟩
             (([⟨0, 0, -5⟩, ⟨0, 12, -5⟩, ⟨-12, 0, -5⟩] : List Vec3).getD 1 ⟨0, 0, 0⟩).negate
             ⟨⟨1, 1, 1⟩, ⟨1, 1, 1⟩, 0, none⟩
             [Light.point ⟨⟨0, 0, 0⟩, ⟨1, 1, 1⟩, 1/2, none⟩] ⟨0, 0, 0⟩).2.g) * 255))) : ℚ) ∧
      gv.b = (jsRound (max 0 (min 255
        (((computeLightingDiffuseAndSpecular testOps
             (([⟨0, 0, -5⟩, ⟨0, 12, -5⟩, ⟨-12, 0, -5⟩] : List Vec3).getD 1 ⟨0, 0, 0⟩) ⟨0, 0, 1⟩
             (([⟨0, 0, -5⟩, ⟨0, 12, -5⟩, ⟨-12, 0, -5⟩] : List Vec3).getD 1 ⟨0, 0, 0⟩).negate
             ⟨⟨1, 1, 1⟩, ⟨1, 1, 1⟩, 0, none⟩
             [Light.point ⟨⟨0, 0, 0⟩, ⟨1, 1, 1⟩, 1/2, none⟩] ⟨0, 0, 0⟩).1.b +
          (computeLightingDiffuseAndSpecular testOps
             (([⟨0, 0, -5⟩, ⟨0, 12, -5⟩, ⟨-12, 0, -5⟩] : List Vec3).getD 1 ⟨0, 0, 0⟩) ⟨0, 0, 1⟩
             (([⟨0, 0, -5⟩, ⟨0, 12, -5⟩, ⟨-12, 0, -5⟩] : List Vec3).getD 1 ⟨0, 0, 0⟩).negate
             ⟨⟨1, 1, 1⟩, ⟨1, 1, 1⟩, 0, none⟩
             [Light.point ⟨⟨0, 0, 0⟩, ⟨1, 1, 1⟩, 1/2, none⟩] ⟨0, 0, 0⟩).2.b) * 255))) : ℚ) :=
  c7_face_normal_amended testOps
    [some ⟨0, 0, 1, false⟩, some ⟨0, 0, 1, false⟩, some ⟨0, 0, 1, false⟩]
    ⟨"#ffffff", [0, 1, 2], none, none, none⟩
    [⟨0, 0, -5⟩, ⟨0, 12, -5⟩, ⟨-12, 0, -5⟩] ⟨0, 0, 1⟩
    ⟨⟨1, 1, 1⟩, ⟨1, 1, 1⟩, 0, none⟩
    [Light.point ⟨⟨0, 0, 0⟩, ⟨1, 1, 1⟩, 1/2, none⟩] ⟨0, 0, 0⟩ [] none
    [⟨0, 0, 128, 128, 128, some 1, none, none, none, none, none⟩,
     ⟨0, 0, 49, 49, 49, some 1, none, none, none, none, none⟩,
     ⟨0, 0, 49, 49, 49, some 1, none, none, none, none, none⟩] 1 1 ⟨0, 0, 1, false⟩
    rfl faceModeCollectEval rfl rfl
